import Mathlib

/-!
# ImageProcessor frontend: submission workflow and polling engine

A shallow embedding of `src/frontend/js/config.js`, `src/frontend/js/api.js`
and `src/frontend/js/app.js`.

* Module-level variables (`selectedFile`, `currentImageId`, `currentPage`)
  are the fields of `AppState`; every handler is a function from the state
  before the call to the state after it together with the ordered list of
  effects (`Event`) the call performs.
* The remote service is an input: an `UploadResponse` for the single upload
  request and a sequence `Nat → StatusResponse` whose entry `i` is what the
  `(i+1)`-th status request of a poll receives.
* A rejected promise / thrown `Error` is `Except.error`.
-/

namespace ImageProcessor

/-! ## Data model -/

/-- Browser `File` object, restricted to the fields the code reads. -/
structure File where
  name : String
  type : String
  size : Nat
deriving DecidableEq, Repr

/-- JavaScript `Error` value; only its message is observable here. -/
structure Error where
  message : String
deriving DecidableEq, Repr

/-- Body of the status endpoint: `status`, `progress`, `processed_operations`
and `total_operations`; the numeric fields may be missing. -/
structure Status where
  status : String
  progress : Option Int
  processed_operations : Option Int
  total_operations : Option Int
deriving DecidableEq, Repr

/-- Body of a successful upload; the code reads only `id`. -/
structure UploadResult where
  id : String
deriving DecidableEq, Repr

/-- Entry pushed by `getSelectedOperations`: a `type` tag and its parameters.
The watermark opacity is kept as the raw input value. -/
inductive Operation where
  | thumbnail (size : Int) (crop_to_fit : Bool)
  | resize (width : Int) (height : Int) (keep_aspect : Bool)
  | watermark (text : String) (opacity : String) (position : String)
deriving DecidableEq, Repr

/-- Outcome of the `fetch` behind `getImageStatus`: the request rejects, or a
response arrives with `ok` false, or with `ok` true and a body whose
`json()` either parses or rejects. -/
inductive StatusResponse where
  | networkError (e : Error)
  | notOk
  | ok (json : Except Error Status)
deriving Repr

/-- Outcome of the `fetch` behind `uploadImage`. For a response with `ok`
false the body is the parsed error object, of which only `message` is read. -/
inductive UploadResponse where
  | networkError (e : Error)
  | notOk (json : Except Error (Option String))
  | ok (json : Except Error UploadResult)
deriving Repr

/-- DOM updates run later from a `setTimeout` callback of `handleUpload`. -/
inductive UIAction where
  | toggleElement (element : String) (visible : Bool)
  | displayResults (imageId : Option String) (operations : List Operation)
deriving DecidableEq, Repr

/-- Observable effects, in the order the code performs them. -/
inductive Event where
  | showToast (message : String) (type : String)
  | toggleElement (element : String) (visible : Bool)
  | updateProgress (percentage : Int) (text : String) (status : String)
  | readAsDataURL (file : File)
  | uploadImage (file : File) (operations : List Operation)
  | getImageStatus (imageId : String)
  | callback (status : Status)
  | wait (interval : Int)
  | setTimeout (delay : Nat) (actions : List UIAction)
  | consoleError (label : String) (e : Error)
  | setProperty (element : String) (property : String) (value : String)
  | uncheckAll (selector : String)
  | listImages (limit : Nat) (offset : Nat)
  | healthCheck
deriving DecidableEq, Repr

/-- Record of the list endpoint, with the fields the gallery reads. -/
structure ImageRecord where
  id : String
  filename : String
  size : Nat
  created_at : String
  status : String
deriving DecidableEq, Repr

/-- Body of the list endpoint: `images` (possibly missing or null) and `count`. -/
structure ListResult where
  images : Option (List ImageRecord)
  count : Nat
deriving DecidableEq, Repr

/-- Outcome of the `fetch` behind `listImages`. -/
inductive ListResponse where
  | networkError (e : Error)
  | notOk
  | ok (json : Except Error ListResult)
deriving Repr

/-- Outcome of the `fetch` behind `healthCheck`: it rejects, or a response
arrives carrying its `ok` flag. -/
inductive HealthResponse where
  | networkError (e : Error)
  | response (ok : Bool)
deriving DecidableEq, Repr

/-- Element `.gallery-item`: the record it was created from, the text of its
overlay heading when it has one, and whether `style.display` is `none`. -/
structure GalleryItem where
  image : ImageRecord
  overlay : Option String
  hidden : Bool
deriving DecidableEq, Repr

/-- Content of the element `galleryGrid`. -/
inductive GridContent where
  | loader
  | emptyState (message : String) (icon : String)
  | items (list : List GalleryItem)
deriving DecidableEq, Repr

/-- Button rendered by `updatePagination`: its `data-page`, the number it
shows, and whether it carries the class `active`. -/
structure PageButton where
  page : Nat
  label : Nat
  active : Bool
deriving DecidableEq, Repr

/-- Gallery part of the document: the grid and the pagination bar. -/
structure GalleryDom where
  galleryGrid : GridContent
  pagination : List PageButton
deriving DecidableEq, Repr

/-- Inputs of the operations panel that `getSelectedOperations` reads; numeric
inputs hold the value `parseInt` yields. -/
structure OperationsForm where
  opThumbnail : Bool
  thumbnailSize : Int
  thumbnailCrop : Bool
  opResize : Bool
  resizeWidth : Int
  resizeHeight : Int
  resizeKeepAspect : Bool
  opWatermark : Bool
  watermarkText : String
  watermarkOpacity : String
  watermarkPosition : String
deriving DecidableEq, Repr

/-- Module-level variables of `app.js`. -/
structure AppState where
  selectedFile : Option File
  currentImageId : Option String
  currentPage : Nat
deriving DecidableEq, Repr

/-! ## config.js -/

/-- Record `CONFIG.api.polling`. -/
structure PollingConfig where
  interval : Int
  maxAttempts : Int
deriving DecidableEq, Repr

/-- Record `CONFIG.upload` (without the extension list, which no code reads). -/
structure UploadConfig where
  maxFileSize : Nat
  allowedTypes : List String
deriving DecidableEq, Repr

/-- Value of `CONFIG.api.polling`. -/
def CONFIG.api.polling : PollingConfig :=
  { interval := 2000, maxAttempts := 60 }

/-- Value of `CONFIG.upload`. -/
def CONFIG.upload : UploadConfig :=
  { maxFileSize := 32 * 1024 * 1024
    allowedTypes := ["image/jpeg", "image/jpg", "image/png", "image/gif", "image/webp"] }

/-! ## api.js -/

/-- Instance state of class `ImageProcessorAPI` that polling reads. -/
structure ImageProcessorAPI where
  pollingConfig : PollingConfig
deriving DecidableEq, Repr

/-- Instance `const api = new ImageProcessorAPI()`, built from `CONFIG.api`. -/
def api : ImageProcessorAPI :=
  { pollingConfig := CONFIG.api.polling }

/-- Result of `getImageStatus` for a given outcome of its `fetch`. -/
def getImageStatus (resp : StatusResponse) : Except Error Status :=
  match resp with
  | .networkError e => .error e
  | .notOk => .error ⟨"Failed to get image status"⟩
  | .ok json => json

/-- Effects of one `getImageStatus` call: the request, and the `console.error`
of its `catch` block when it throws. -/
def getImageStatusLog (imageId : String) (resp : StatusResponse) : List Event :=
  match getImageStatus resp with
  | .error e => [.getImageStatus imageId, .consoleError "Get status error:" e]
  | .ok _ => [.getImageStatus imageId]

/-- Result of `uploadImage` for a given outcome of its `fetch`. -/
def uploadImage (resp : UploadResponse) : Except Error UploadResult :=
  match resp with
  | .networkError e => .error e
  | .notOk (.error e) => .error e
  | .notOk (.ok message) =>
    match message with
    | none => .error ⟨"Upload failed"⟩
    | some m => if m = "" then .error ⟨"Upload failed"⟩ else .error ⟨m⟩
  | .ok json => json

/-- Effects of one `uploadImage` call. -/
def uploadImageLog (file : File) (operations : List Operation) (resp : UploadResponse) :
    List Event :=
  match uploadImage resp with
  | .error e => [.uploadImage file operations, .consoleError "Upload error:" e]
  | .ok _ => [.uploadImage file operations]

/-- JavaScript `x || d` on an optional number: `null`, `undefined` and `0`
are falsy, every other number is kept. -/
def orDefault (x : Option Int) (d : Int) : Int :=
  match x with
  | none => d
  | some v => if v = 0 then d else v

/-- Error thrown when the attempt budget is used up. -/
def pollingTimeout : Error := ⟨"Polling timeout"⟩

/-- Test `status.status === 'completed' || status.status === 'failed'`. -/
def isTerminal (status : Status) : Bool :=
  status.status == "completed" || status.status == "failed"

/-- Closure `poll` of `pollImageStatus`. `attempts` is the counter before the
`attempts++` of this tick; entry `attempts` of `remote` answers this tick's
request. Returns the effects from this tick on and the settled value. -/
def poll (remote : Nat → StatusResponse) (imageId : String) (interval maxAttempts : Int)
    (attempts : Nat) : List Event × Except Error Status :=
  match getImageStatus (remote attempts) with
  | .error e =>
    (getImageStatusLog imageId (remote attempts) ++ [.consoleError "Polling error:" e], .error e)
  | .ok status =>
    if isTerminal status then
      (getImageStatusLog imageId (remote attempts) ++ [.callback status], .ok status)
    else if maxAttempts ≤ ((attempts + 1 : Nat) : Int) then
      (getImageStatusLog imageId (remote attempts) ++
        [.callback status, .consoleError "Polling error:" pollingTimeout], .error pollingTimeout)
    else
      let rest := poll remote imageId interval maxAttempts (attempts + 1)
      (getImageStatusLog imageId (remote attempts) ++
        [.callback status, .wait interval] ++ rest.1, rest.2)
termination_by (maxAttempts - attempts).toNat
decreasing_by
  simp only [Nat.cast_add, Nat.cast_one] at *
  omega

/-- Method `pollImageStatus(imageId, callback, interval, maxAttempts)`.
An omitted or `null` argument is `none`. Each invocation of `callback` is
recorded as `Event.callback`. -/
def ImageProcessorAPI.pollImageStatus (self : ImageProcessorAPI) (remote : Nat → StatusResponse)
    (imageId : String) (interval maxAttempts : Option Int) : List Event × Except Error Status :=
  poll remote imageId (orDefault interval self.pollingConfig.interval)
    (orDefault maxAttempts self.pollingConfig.maxAttempts) 0

/-! ## app.js -/

/-- Function `handleFileSelect(file)`. -/
def handleFileSelect (s : AppState) (file : File) : AppState × List Event :=
  let validTypes := ["image/jpeg", "image/jpg", "image/png", "image/gif", "image/webp"]
  if ¬ validTypes.contains file.type then
    (s, [.showToast "Неподдерживаемый формат файла" "error"])
  else
    let maxSize := 32 * 1024 * 1024
    if file.size > maxSize then
      (s, [.showToast "Размер файла превышает 32MB" "error"])
    else
      ({ s with selectedFile := some file }, [.readAsDataURL file])

/-- Function `getSelectedOperations()`: one entry per checked box, in the
fixed order thumbnail, resize, watermark. -/
def getSelectedOperations (form : OperationsForm) : List Operation :=
  (if form.opThumbnail then [Operation.thumbnail form.thumbnailSize form.thumbnailCrop] else []) ++
  (if form.opResize then
    [Operation.resize form.resizeWidth form.resizeHeight form.resizeKeepAspect] else []) ++
  (if form.opWatermark then
    [Operation.watermark form.watermarkText form.watermarkOpacity form.watermarkPosition]
   else [])

/-- Body of the callback `handleUpload` passes to `pollImageStatus`. -/
def progressCallback (operations : List Operation) (status : Status) : Event :=
  let progress := orDefault status.progress 50
  .updateProgress (min progress 95)
    ("Обработка: " ++ toString (orDefault status.processed_operations 0) ++ "/" ++
      toString (orDefault status.total_operations (operations.length : Int)))
    status.status

/-- Effects of a poll once every recorded callback invocation is replaced by
what the callback of `handleUpload` does. -/
def withProgressCallback (operations : List Operation) (trace : List Event) : List Event :=
  trace.map fun ev =>
    match ev with
    | .callback status => progressCallback operations status
    | other => other

/-- Block `catch (error)` of `handleUpload`. -/
def handleUploadCatch (error : Error) : List Event :=
  [ .consoleError "Upload error:" error,
    .updateProgress 0 "Ошибка обработки" "failed",
    .showToast ("Ошибка при загрузке: " ++ error.message) "error",
    .setTimeout 2000
      [.toggleElement "progressSection" false, .toggleElement "operationsPanel" true] ]

/-- Function `handleUpload()`. The form is the DOM state `getSelectedOperations`
reads, `upload` answers the upload request and `remote` the status requests.
The deferred `displayResults` call is recorded with the value `currentImageId`
has when the timer is set. -/
def handleUpload (s : AppState) (form : OperationsForm) (upload : UploadResponse)
    (remote : Nat → StatusResponse) : AppState × List Event :=
  match s.selectedFile with
  | none => (s, [.showToast "Пожалуйста, выберите изображение" "error"])
  | some file =>
    let operations := getSelectedOperations form
    if operations.length = 0 then
      (s, [.showToast "Пожалуйста, выберите хотя бы одну операцию" "error"])
    else
      let started : List Event :=
        [ .toggleElement "operationsPanel" false,
          .toggleElement "progressSection" true,
          .updateProgress 0 "Загрузка изображения..." "pending",
          .updateProgress 30 "Загрузка на сервер..." "uploading" ] ++
        uploadImageLog file operations upload
      match uploadImage upload with
      | .error e => (s, started ++ handleUploadCatch e)
      | .ok uploadResult =>
        let s1 := { s with currentImageId := some uploadResult.id }
        let polled := api.pollImageStatus remote uploadResult.id none none
        let processing : List Event :=
          started ++
          [ .updateProgress 50 "Обработка изображения..." "processing",
            .showToast "Изображение загружено, начинается обработка" "success" ] ++
          withProgressCallback operations polled.1
        match polled.2 with
        | .error e => (s1, processing ++ handleUploadCatch e)
        | .ok _ =>
          (s1, processing ++
            [ .updateProgress 100 "Обработка завершена!" "completed",
              .showToast "Изображение успешно обработано!" "success",
              .setTimeout 200
                [ .toggleElement "progressSection" false,
                  .toggleElement "resultsSection" true,
                  .displayResults s1.currentImageId operations ] ])

/-- Function `resetUploadSection()`. -/
def resetUploadSection (s : AppState) : AppState × List Event :=
  ({ s with selectedFile := none, currentImageId := none },
    [ .setProperty "fileInput" "value" "",
      .setProperty "previewImage" "src" "",
      .toggleElement "uploadArea" true,
      .toggleElement "previewArea" false,
      .toggleElement "operationsPanel" false,
      .toggleElement "progressSection" false,
      .toggleElement "resultsSection" false,
      .uncheckAll ".operation-checkbox" ])

/-- JavaScript `s.startsWith(p)` on the characters of both strings. -/
def charsStartWith : List Char → List Char → Bool
  | _, [] => true
  | [], _ :: _ => false
  | c :: cs, d :: ds => c == d && charsStartWith cs ds

/-- JavaScript `s.includes(q)` on the characters of both strings. -/
def charsInclude : List Char → List Char → Bool
  | [], q => q.isEmpty
  | c :: cs, q => charsStartWith (c :: cs) q || charsInclude cs q

/-- Method `String.prototype.startsWith`. -/
def startsWith (s p : String) : Bool := charsStartWith s.data p.data

/-- Method `String.prototype.includes`. -/
def includes (s q : String) : Bool := charsInclude s.data q.data

/-- Listener of `fileInput` for `change`; the argument is `e.target.files[0]`. -/
def changeHandler (s : AppState) (file : Option File) : AppState × List Event :=
  match file with
  | some f => handleFileSelect s f
  | none => (s, [])

/-- Listener of `uploadArea` for `drop`; the argument is
`e.dataTransfer.files[0]`. -/
def dropHandler (s : AppState) (file : Option File) : AppState × List Event :=
  match file with
  | some f =>
    if startsWith f.type "image/" then handleFileSelect s f
    else (s, [.showToast "Пожалуйста, выберите изображение" "error"])
  | none => (s, [.showToast "Пожалуйста, выберите изображение" "error"])

/-- Constant `PAGE_SIZE`. -/
def PAGE_SIZE : Nat := 12

/-- Result of `listImages` for a given outcome of its `fetch`. -/
def listImages (resp : ListResponse) : Except Error ListResult :=
  match resp with
  | .networkError e => .error e
  | .notOk => .error ⟨"Failed to list images"⟩
  | .ok json => json

/-- Effects of one `listImages(limit, offset)` call. -/
def listImagesLog (limit offset : Nat) (resp : ListResponse) : List Event :=
  match listImages resp with
  | .error e => [.listImages limit offset, .consoleError "List images error:" e]
  | .ok _ => [.listImages limit offset]

/-- Method `healthCheck()`: the `try` body yields `response.ok`, the `catch`
block turns every thrown error into `false`. -/
def healthCheck (resp : HealthResponse) : Except Error Bool :=
  let attempt : Except Error Bool :=
    match resp with
    | .networkError e => .error e
    | .response ok => .ok ok
  match attempt with
  | .ok ok => .ok ok
  | .error _ => .ok false

/-- Expression `Math.ceil(total / PAGE_SIZE)`, the quotient taken exactly. -/
def totalPagesOf (total : Nat) : Nat :=
  Nat.ceil ((total : ℚ) / (PAGE_SIZE : ℚ))

/-- Function `updatePagination(total, currentPage)`: the buttons left in the
pagination bar. -/
def updatePagination (total : Nat) (currentPage : Nat) : List PageButton :=
  let totalPages := totalPagesOf total
  if totalPages ≤ 1 then []
  else (List.range totalPages).map fun i =>
    { page := i, label := i + 1, active := i == currentPage }

/-- Function `UI.createGalleryItem(image)`: a visible item whose overlay holds
`<h4>${image.filename}</h4>`, written through `innerHTML` without escaping.
`headingText` is the browser's HTML parser: it maps the markup put inside the
heading to the `textContent` the heading then has. -/
def createGalleryItem (headingText : String → String) (image : ImageRecord) : GalleryItem :=
  { image := image, overlay := some (headingText image.filename), hidden := false }

/-- Function `loadGallery(filter, page)`. The remote list endpoint maps the
requested `limit` and `offset` to its response; `headingText` is the HTML
parser used by `createGalleryItem`. -/
def loadGallery (headingText : String → String) (dom : GalleryDom) (filter : String)
    (page : Nat) (remote : Nat → Nat → ListResponse) : GalleryDom × List Event :=
  let resp := remote PAGE_SIZE (page * PAGE_SIZE)
  let requested := listImagesLog PAGE_SIZE (page * PAGE_SIZE) resp
  match listImages resp with
  | .error e =>
    ({ dom with galleryGrid := .emptyState "Ошибка загрузки галереи" "fa-exclamation-triangle" },
      requested ++ [.consoleError "Load gallery error:" e,
        .showToast "Ошибка загрузки галереи" "error"])
  | .ok result =>
    match result.images with
    | none => ({ dom with galleryGrid := .emptyState "Нет изображений" "fa-images" }, requested)
    | some all =>
      if all.length = 0 then
        ({ dom with galleryGrid := .emptyState "Нет изображений" "fa-images" }, requested)
      else
        let images := if filter ≠ "all" then all.filter (fun img => img.status == filter) else all
        ({ galleryGrid := .items (images.map (createGalleryItem headingText)),
           pagination := updatePagination result.count page }, requested)

/-- Function `filterGalleryBySearch(query)`: every gallery item with an overlay
heading is shown or hidden by whether the lower-cased heading includes the
query. `toLowerCase` is `String.prototype.toLowerCase`. -/
def filterGalleryBySearch (toLowerCase : String → String) (dom : GalleryDom) (query : String) :
    GalleryDom :=
  match dom.galleryGrid with
  | .items list =>
    { dom with galleryGrid := .items (list.map fun item =>
        match item.overlay with
        | some text => { item with hidden := !includes (toLowerCase text) query }
        | none => item) }
  | _ => dom

/-- Timer callback of the `input` listener of `searchInput`; `value` is
`searchInput.value`. -/
def searchHandler (toLowerCase : String → String) (dom : GalleryDom) (value : String) :
    GalleryDom × List Event :=
  (filterGalleryBySearch toLowerCase dom (toLowerCase value), [])

/-- Modelled from the spec: the remote list endpoint, which is not among the
sources, answering `limit`/`offset` with the slice `[offset, offset + limit)`
of its collection and the total count. -/
def listSlice (collection : List ImageRecord) (limit offset : Nat) : ListResponse :=
  .ok (.ok { images := some ((collection.drop offset).take limit), count := collection.length })

/-! ## Observations on effect traces -/

/-- Requests sent to the remote service. -/
def Event.isNetworkCall : Event → Bool
  | .uploadImage _ _ => true
  | .getImageStatus _ => true
  | .listImages _ _ => true
  | .healthCheck => true
  | _ => false

/-- Percentages of the snapshots given to `UI.updateProgress`, in order. -/
def percentages (trace : List Event) : List Int :=
  trace.filterMap fun ev => match ev with
    | .updateProgress percentage _ _ => some percentage
    | _ => none

/-- Records of the gallery items currently displayed. -/
def visibleRecords (dom : GalleryDom) : List ImageRecord :=
  match dom.galleryGrid with
  | .items list => (list.filter fun item => !item.hidden).map fun item => item.image
  | _ => []

/-- Number of `getImageStatus` requests in a trace. -/
def fetchCount (trace : List Event) : Nat :=
  trace.countP fun ev => match ev with
    | .getImageStatus _ => true
    | _ => false

/-- Statuses handed to the polling callback, in order. -/
def callbackArgs (trace : List Event) : List Status :=
  trace.filterMap fun ev => match ev with
    | .callback status => some status
    | _ => none

/-- Delays of the inter-tick waits, in order. -/
def waits (trace : List Event) : List Int :=
  trace.filterMap fun ev => match ev with
    | .wait interval => some interval
    | _ => none

/-- Status tags of the snapshots given to `UI.updateProgress`, in order. -/
def snapshotTags (trace : List Event) : List String :=
  trace.filterMap fun ev => match ev with
    | .updateProgress _ _ status => some status
    | _ => none

/-- Whether a trace schedules the results view (`resultsSection` made visible). -/
def showsResults (trace : List Event) : Bool :=
  trace.any fun ev => match ev with
    | .setTimeout _ actions => actions.contains (.toggleElement "resultsSection" true)
    | _ => false

/-! ## Concrete inputs -/

/-- State with a valid 5-byte PNG already selected. -/
def stateWithPng : AppState :=
  { selectedFile := some ⟨"cat.png", "image/png", 5⟩, currentImageId := none, currentPage := 0 }

/-- A 40 MB JPEG, above the 32 MiB ceiling. -/
def oversizedJpeg : File := ⟨"big.jpg", "image/jpeg", 40000000⟩

/-- Non-terminal status `processing` at 40 %. -/
def processingStatus : Status :=
  { status := "processing", progress := some 40, processed_operations := some 0,
    total_operations := some 1 }

/-- Terminal status `completed`. -/
def completedStatus : Status :=
  { status := "completed", progress := some 100, processed_operations := some 1,
    total_operations := some 1 }

/-- Terminal status `failed`, as reported by the remote service. -/
def failedStatus : Status :=
  { status := "failed", progress := some 40, processed_operations := some 0,
    total_operations := some 1 }

/-- Remote that answers every status request with `processing`. -/
def neverTerminal : Nat → StatusResponse :=
  fun _ => .ok (.ok processingStatus)

/-- Remote that answers `processing` once and `completed` from then on. -/
def completesSecond : Nat → StatusResponse :=
  fun i => if i = 0 then .ok (.ok processingStatus) else .ok (.ok completedStatus)

/-- Remote whose first two answers are `processing` and whose third request
is rejected by the network. -/
def failsThird : Nat → StatusResponse :=
  fun i => if i < 2 then .ok (.ok processingStatus) else .networkError ⟨"Failed to fetch"⟩

/-- Remote that reports `failed` on the first status request. -/
def reportsFailed : Nat → StatusResponse :=
  fun _ => .ok (.ok failedStatus)

/-- Statuses carried by the answers of `completesSecond`. -/
def completesSecondStatuses : Nat → Status :=
  fun i => if i = 0 then processingStatus else completedStatus

/-- Operations panel with only the thumbnail box checked. -/
def thumbnailForm : OperationsForm :=
  { opThumbnail := true, thumbnailSize := 128, thumbnailCrop := false,
    opResize := false, resizeWidth := 800, resizeHeight := 600, resizeKeepAspect := true,
    opWatermark := false, watermarkText := "", watermarkOpacity := "0.5",
    watermarkPosition := "center" }

/-- Operations panel with no box checked. -/
def emptyForm : OperationsForm :=
  { thumbnailForm with opThumbnail := false }

/-- Upload answered with success and job id `img-1`. -/
def uploadAccepted : UploadResponse := .ok (.ok ⟨"img-1"⟩)

/-- Upload answered with a non-success response carrying a server message. -/
def uploadRefused : UploadResponse := .notOk (.ok (some "storage unavailable"))

/-- State of Scenario A: a 5 MB JPEG is selected. -/
def scenarioAState : AppState :=
  { selectedFile := some ⟨"photo.jpg", "image/jpeg", 5 * 1024 * 1024⟩, currentImageId := none,
    currentPage := 0 }

/-- Operations of Scenario A: thumbnail of size 128 and resize to 800 x 600
keeping the aspect ratio. -/
def scenarioAForm : OperationsForm :=
  { thumbnailForm with opResize := true }

/-- Statuses of Scenario A: `queued`, `processing` at 40 %, `processing` at
80 %, then `completed`. -/
def scenarioAStatuses : Nat → Status :=
  fun i =>
    if i = 0 then
      { status := "queued", progress := some 0, processed_operations := some 0,
        total_operations := some 2 }
    else if i = 1 then
      { status := "processing", progress := some 40, processed_operations := some 0,
        total_operations := some 2 }
    else if i = 2 then
      { status := "processing", progress := some 80, processed_operations := some 1,
        total_operations := some 2 }
    else
      { status := "completed", progress := some 100, processed_operations := some 2,
        total_operations := some 2 }

/-- Remote of Scenario A. -/
def scenarioA : Nat → StatusResponse :=
  fun i => .ok (.ok (scenarioAStatuses i))

/-- Method `toLowerCase` on strings whose only cased characters are ASCII
letters. -/
def asciiLower (s : String) : String := ⟨s.data.map Char.toLower⟩

/-- Heading text the HTML parser produces for the file names used below:
`&copy` is a legacy character reference and is decoded to `©` even without a
semicolon; a name without `&` and `<` is its own text. -/
def legacyEntityText (markup : String) : String :=
  if markup = "cut&copy.png" then "cut©.png" else markup

/-- Completed record named `cut&copy.png`. -/
def cutCopyRecord : ImageRecord :=
  { id := "img-2", filename := "cut&copy.png", size := 5,
    created_at := "2024-01-01T00:00:00Z", status := "completed" }

/-- Page holding the single record `cutCopyRecord`. -/
def cutCopyPage : ListResult :=
  { images := some [cutCopyRecord], count := 1 }

/-- Collection of one completed record. -/
def oneRecord : List ImageRecord :=
  [{ id := "img-1", filename := "Cat.PNG", size := 5, created_at := "2024-01-01T00:00:00Z",
     status := "completed" }]

/-! ## File validation (`handleFileSelect`) -/

theorem handleFileSelect_valid (s : AppState) (file : File)
    (hType : file.type ∈ ["image/jpeg", "image/jpg", "image/png", "image/gif", "image/webp"])
    (hSize : file.size ≤ 32 * 1024 * 1024) :
    handleFileSelect s file = ({ s with selectedFile := some file }, [.readAsDataURL file]) := by
  have hc : ["image/jpeg", "image/jpg", "image/png", "image/gif", "image/webp"].contains
      file.type = true := by simpa using hType
  have hs : ¬ file.size > 32 * 1024 * 1024 := by omega
  simp only [handleFileSelect, hc, not_true_eq_false, if_false, hs]

theorem handleFileSelect_invalid (s : AppState) (file : File)
    (h : file.type ∉ ["image/jpeg", "image/jpg", "image/png", "image/gif", "image/webp"] ∨
      file.size > 32 * 1024 * 1024) :
    handleFileSelect s file = (s, [.showToast "Неподдерживаемый формат файла" "error"]) ∨
    handleFileSelect s file = (s, [.showToast "Размер файла превышает 32MB" "error"]) := by
  by_cases hc : ["image/jpeg", "image/jpg", "image/png", "image/gif", "image/webp"].contains
      file.type = true
  · have hType : file.type ∈ ["image/jpeg", "image/jpg", "image/png", "image/gif", "image/webp"] := by
      simpa using hc
    have hs : file.size > 32 * 1024 * 1024 := by
      rcases h with h | h
      · exact absurd hType h
      · exact h
    right
    simp only [handleFileSelect, hc, not_true_eq_false, if_false, hs, if_true]
  · left
    have hc2 : ["image/jpeg", "image/jpg", "image/png", "image/gif", "image/webp"].contains
        file.type = false := by simpa using hc
    simp only [handleFileSelect, hc2, Bool.false_eq_true, not_false_eq_true, if_true]

/-- C1: `handleFileSelect` takes the accepting path (stores the file in
`selectedFile` and starts the preview read) exactly when the MIME type is one
of the five whitelisted types and the size is at most 32 MiB; from a state
with nothing selected, `selectedFile` becomes the file under exactly that
condition; a whitelisted file of 33554432 bytes is accepted and any file of
33554433 bytes is rejected. -/
theorem handleFileSelect_accepts_iff (s : AppState) (file : File) :
    (handleFileSelect s file = ({ s with selectedFile := some file }, [.readAsDataURL file]) ↔
      (file.type ∈ ["image/jpeg", "image/jpg", "image/png", "image/gif", "image/webp"] ∧
        file.size ≤ 32 * 1024 * 1024)) ∧
    ((handleFileSelect { s with selectedFile := none } file).1.selectedFile = some file ↔
      (file.type ∈ ["image/jpeg", "image/jpg", "image/png", "image/gif", "image/webp"] ∧
        file.size ≤ 32 * 1024 * 1024)) ∧
    ((handleFileSelect { s with selectedFile := none }
        { file with size := 33554432 }).1.selectedFile = some { file with size := 33554432 } ↔
      file.type ∈ ["image/jpeg", "image/jpg", "image/png", "image/gif", "image/webp"]) ∧
    (handleFileSelect { s with selectedFile := none }
        { file with size := 33554433 }).1.selectedFile = none := by
  have key : ∀ (t : AppState) (f : File),
      (f.type ∈ ["image/jpeg", "image/jpg", "image/png", "image/gif", "image/webp"] ∧
        f.size ≤ 32 * 1024 * 1024) ∨ (handleFileSelect t f).1 = t ∧
          (handleFileSelect t f).2 ≠ [.readAsDataURL f] := by
    intro t f
    by_cases hv : f.type ∈ ["image/jpeg", "image/jpg", "image/png", "image/gif", "image/webp"] ∧
        f.size ≤ 32 * 1024 * 1024
    · exact Or.inl hv
    · right
      have hinv : f.type ∉ ["image/jpeg", "image/jpg", "image/png", "image/gif", "image/webp"] ∨
          f.size > 32 * 1024 * 1024 := by
        by_cases ht : f.type ∈ ["image/jpeg", "image/jpg", "image/png", "image/gif", "image/webp"]
        · right
          have : ¬ f.size ≤ 32 * 1024 * 1024 := fun hs => hv ⟨ht, hs⟩
          omega
        · exact Or.inl ht
      rcases handleFileSelect_invalid t f hinv with h | h <;> rw [h] <;> simp
  refine ⟨⟨?_, ?_⟩, ⟨?_, ?_⟩, ⟨?_, ?_⟩, ?_⟩
  · intro h
    rcases key s file with hv | ⟨_, hne⟩
    · exact hv
    · rw [h] at hne
      exact absurd rfl hne
  · rintro ⟨ht, hs⟩
    exact handleFileSelect_valid s file ht hs
  · intro h
    rcases key { s with selectedFile := none } file with hv | ⟨hst, _⟩
    · exact hv
    · rw [hst] at h
      simp at h
  · rintro ⟨ht, hs⟩
    rw [handleFileSelect_valid _ file ht hs]
  · intro h
    rcases key { s with selectedFile := none } { file with size := 33554432 } with hv | ⟨hst, _⟩
    · exact hv.1
    · rw [hst] at h
      simp at h
  · intro ht
    rw [handleFileSelect_valid _ { file with size := 33554432 } ht (by simp)]
  · rcases key { s with selectedFile := none } { file with size := 33554433 } with hv | ⟨hst, _⟩
    · have := hv.2
      simp at this
    · rw [hst]

/-- C2 (as stated) fails: with a valid PNG already selected, offering a 40 MB
JPEG (above the 32 MiB ceiling) leaves `selectedFile` holding the PNG rather
than null. -/
theorem handleFileSelect_keeps_previous_selection :
    oversizedJpeg.size > 32 * 1024 * 1024 ∧
    (handleFileSelect stateWithPng oversizedJpeg).1.selectedFile =
      some ⟨"cat.png", "image/png", 5⟩ ∧
    (handleFileSelect stateWithPng oversizedJpeg).1.selectedFile ≠ none := by
  decide

/-- C2 (amended): for every state and every file that violates the MIME
whitelist or the 32 MiB ceiling, `handleFileSelect` leaves the whole state as
it was (so `selectedFile` is null exactly when it was null before), and its
only effect is one error toast: no network call is made. -/
theorem handleFileSelect_rejects_without_change (s : AppState) (file : File)
    (h : file.type ∉ ["image/jpeg", "image/jpg", "image/png", "image/gif", "image/webp"] ∨
      file.size > 32 * 1024 * 1024) :
    (handleFileSelect s file).1 = s ∧
    ((handleFileSelect s file).1.selectedFile = none ↔ s.selectedFile = none) ∧
    (handleFileSelect s file).2.all (fun ev => !ev.isNetworkCall) = true ∧
    (∃ message, (handleFileSelect s file).2 = [.showToast message "error"]) := by
  rcases handleFileSelect_invalid s file h with h1 | h1 <;> rw [h1] <;>
    simp [Event.isNetworkCall]

theorem handleFileSelect_rejects_without_change_witness :
    oversizedJpeg.size > 32 * 1024 * 1024 ∧
    (handleFileSelect stateWithPng oversizedJpeg).1 = stateWithPng ∧
    ((handleFileSelect stateWithPng oversizedJpeg).1.selectedFile = none ↔
      stateWithPng.selectedFile = none) ∧
    (handleFileSelect stateWithPng oversizedJpeg).2.all (fun ev => !ev.isNetworkCall) = true ∧
    (∃ message, (handleFileSelect stateWithPng oversizedJpeg).2 = [.showToast message "error"]) :=
  ⟨by decide,
    handleFileSelect_rejects_without_change stateWithPng oversizedJpeg (Or.inr (by decide))⟩

/-! ## Unfolding `poll` by the branch it takes -/

theorem poll_error (remote : Nat → StatusResponse) (imageId : String) (interval maxAttempts : Int)
    (attempts : Nat) (e : Error) (h : getImageStatus (remote attempts) = .error e) :
    poll remote imageId interval maxAttempts attempts =
      ([.getImageStatus imageId, .consoleError "Get status error:" e,
        .consoleError "Polling error:" e], .error e) := by
  rw [poll]
  simp [h, getImageStatusLog]

theorem poll_terminal (remote : Nat → StatusResponse) (imageId : String)
    (interval maxAttempts : Int) (attempts : Nat) (status : Status)
    (h : getImageStatus (remote attempts) = .ok status) (hT : isTerminal status = true) :
    poll remote imageId interval maxAttempts attempts =
      ([.getImageStatus imageId, .callback status], .ok status) := by
  rw [poll]
  simp [h, getImageStatusLog, hT]

theorem poll_timeout (remote : Nat → StatusResponse) (imageId : String)
    (interval maxAttempts : Int) (attempts : Nat) (status : Status)
    (h : getImageStatus (remote attempts) = .ok status) (hT : isTerminal status = false)
    (hA : maxAttempts ≤ (attempts : Int) + 1) :
    poll remote imageId interval maxAttempts attempts =
      ([.getImageStatus imageId, .callback status,
        .consoleError "Polling error:" pollingTimeout], .error pollingTimeout) := by
  rw [poll]
  simp [h, getImageStatusLog, hT, hA]

theorem poll_continue (remote : Nat → StatusResponse) (imageId : String)
    (interval maxAttempts : Int) (attempts : Nat) (status : Status)
    (h : getImageStatus (remote attempts) = .ok status) (hT : isTerminal status = false)
    (hA : (attempts : Int) + 1 < maxAttempts) :
    poll remote imageId interval maxAttempts attempts =
      ([.getImageStatus imageId, .callback status, .wait interval] ++
        (poll remote imageId interval maxAttempts (attempts + 1)).1,
       (poll remote imageId interval maxAttempts (attempts + 1)).2) := by
  rw [poll]
  simp [h, getImageStatusLog, hT, hA]

/-- The four ways one tick of `poll` can go. -/
theorem poll_cases (remote : Nat → StatusResponse) (imageId : String)
    (interval maxAttempts : Int) (attempts : Nat) :
    (∃ e, getImageStatus (remote attempts) = .error e ∧
      poll remote imageId interval maxAttempts attempts =
        ([.getImageStatus imageId, .consoleError "Get status error:" e,
          .consoleError "Polling error:" e], .error e)) ∨
    (∃ status, getImageStatus (remote attempts) = .ok status ∧ isTerminal status = true ∧
      poll remote imageId interval maxAttempts attempts =
        ([.getImageStatus imageId, .callback status], .ok status)) ∨
    (∃ status, getImageStatus (remote attempts) = .ok status ∧ isTerminal status = false ∧
      maxAttempts ≤ (attempts : Int) + 1 ∧
      poll remote imageId interval maxAttempts attempts =
        ([.getImageStatus imageId, .callback status,
          .consoleError "Polling error:" pollingTimeout], .error pollingTimeout)) ∨
    (∃ status, getImageStatus (remote attempts) = .ok status ∧ isTerminal status = false ∧
      (attempts : Int) + 1 < maxAttempts ∧
      poll remote imageId interval maxAttempts attempts =
        ([.getImageStatus imageId, .callback status, .wait interval] ++
          (poll remote imageId interval maxAttempts (attempts + 1)).1,
         (poll remote imageId interval maxAttempts (attempts + 1)).2)) := by
  cases h : getImageStatus (remote attempts) with
  | error e => exact Or.inl ⟨e, rfl, poll_error _ _ _ _ _ e h⟩
  | ok status =>
    cases hT : isTerminal status with
    | true => exact Or.inr (Or.inl ⟨status, rfl, hT, poll_terminal _ _ _ _ _ status h hT⟩)
    | false =>
      by_cases hA : maxAttempts ≤ (attempts : Int) + 1
      · exact Or.inr (Or.inr (Or.inl ⟨status, rfl, hT, hA, poll_timeout _ _ _ _ _ status h hT hA⟩))
      · have hA2 : (attempts : Int) + 1 < maxAttempts := by omega
        exact Or.inr (Or.inr (Or.inr
          ⟨status, rfl, hT, hA2, poll_continue _ _ _ _ _ status h hT hA2⟩))

/-! ## Counting on traces -/

theorem fetchCount_append (xs ys : List Event) :
    fetchCount (xs ++ ys) = fetchCount xs + fetchCount ys := by
  simp [fetchCount]

theorem callbackArgs_append (xs ys : List Event) :
    callbackArgs (xs ++ ys) = callbackArgs xs ++ callbackArgs ys := by
  simp [callbackArgs]

theorem waits_append (xs ys : List Event) : waits (xs ++ ys) = waits xs ++ waits ys := by
  simp [waits]

/-- Budget: from counter value `attempts`, `poll` sends at most
`max 1 (maxAttempts - attempts)` status requests. -/
theorem fetchCount_poll_le (remote : Nat → StatusResponse) (imageId : String)
    (interval maxAttempts : Int) :
    ∀ (n attempts : Nat), (maxAttempts - attempts).toNat ≤ n →
      fetchCount (poll remote imageId interval maxAttempts attempts).1 ≤ max 1 n := by
  intro n
  induction n with
  | zero =>
    intro attempts hn
    rcases poll_cases remote imageId interval maxAttempts attempts with
      ⟨e, _, hp⟩ | ⟨st, _, _, hp⟩ | ⟨st, _, _, _, hp⟩ | ⟨st, _, _, hA, _⟩
    · rw [hp]; simp [fetchCount]
    · rw [hp]; simp [fetchCount]
    · rw [hp]; simp [fetchCount]
    · omega
  | succ n ih =>
    intro attempts hn
    rcases poll_cases remote imageId interval maxAttempts attempts with
      ⟨e, _, hp⟩ | ⟨st, _, _, hp⟩ | ⟨st, _, _, _, hp⟩ | ⟨st, _, _, hA, hp⟩
    · rw [hp]; simp [fetchCount]
    · rw [hp]; simp [fetchCount]
    · rw [hp]; simp [fetchCount]
    · have h1 : (maxAttempts - ((attempts + 1 : Nat) : Int)).toNat ≤ n := by
        push_cast
        omega
      have h2 := ih (attempts + 1) h1
      have h3 : 1 ≤ n := by omega
      rw [hp, fetchCount_append]
      have h4 : fetchCount [Event.getImageStatus imageId, Event.callback st,
          Event.wait interval] = 1 := by simp [fetchCount]
      rw [h4]
      omega

/-- Every inter-tick wait of `poll` lasts exactly `interval`. -/
theorem waits_poll (remote : Nat → StatusResponse) (imageId : String)
    (interval maxAttempts : Int) :
    ∀ (n attempts : Nat), (maxAttempts - attempts).toNat ≤ n →
      ∀ w ∈ waits (poll remote imageId interval maxAttempts attempts).1, w = interval := by
  intro n
  induction n with
  | zero =>
    intro attempts hn w hw
    rcases poll_cases remote imageId interval maxAttempts attempts with
      ⟨e, _, hp⟩ | ⟨st, _, _, hp⟩ | ⟨st, _, _, _, hp⟩ | ⟨st, _, _, hA, _⟩
    · rw [hp] at hw; simp [waits] at hw
    · rw [hp] at hw; simp [waits] at hw
    · rw [hp] at hw; simp [waits] at hw
    · omega
  | succ n ih =>
    intro attempts hn w hw
    rcases poll_cases remote imageId interval maxAttempts attempts with
      ⟨e, _, hp⟩ | ⟨st, _, _, hp⟩ | ⟨st, _, _, _, hp⟩ | ⟨st, _, _, hA, hp⟩
    · rw [hp] at hw; simp [waits] at hw
    · rw [hp] at hw; simp [waits] at hw
    · rw [hp] at hw; simp [waits] at hw
    · have h1 : (maxAttempts - ((attempts + 1 : Nat) : Int)).toNat ≤ n := by
        push_cast
        omega
      rw [hp, waits_append] at hw
      rcases List.mem_append.mp hw with h | h
      · simp [waits] at h
        exact h
      · exact ih (attempts + 1) h1 w h

/-- Run in which no response up to the budget is terminal: one request per
tick until the counter reaches `N`, then the timeout error. -/
theorem poll_never_terminal (remote : Nat → StatusResponse) (imageId : String)
    (interval : Int) (N : Nat) :
    ∀ (n attempts : Nat), attempts + n + 1 = N →
      (∀ i, attempts ≤ i → i < N →
        ∃ st, getImageStatus (remote i) = .ok st ∧ isTerminal st = false) →
      fetchCount (poll remote imageId interval (N : Int) attempts).1 = n + 1 ∧
      (callbackArgs (poll remote imageId interval (N : Int) attempts).1).length = n + 1 ∧
      (poll remote imageId interval (N : Int) attempts).2 = .error pollingTimeout := by
  intro n
  induction n with
  | zero =>
    intro attempts hN hr
    obtain ⟨st, hst, hT⟩ := hr attempts (le_refl _) (by omega)
    have hA : (N : Int) ≤ (attempts : Int) + 1 := by omega
    rw [poll_timeout remote imageId interval N attempts st hst hT hA]
    simp [fetchCount, callbackArgs]
  | succ n ih =>
    intro attempts hN hr
    obtain ⟨st, hst, hT⟩ := hr attempts (le_refl _) (by omega)
    have hA : (attempts : Int) + 1 < (N : Int) := by omega
    obtain ⟨h1, h2, h3⟩ := ih (attempts + 1) (by omega)
      (fun i hi hiN => hr i (by omega) hiN)
    rw [poll_continue remote imageId interval N attempts st hst hT hA]
    refine ⟨?_, ?_, h3⟩
    · rw [fetchCount_append, h1]
      simp [fetchCount]
      omega
    · rw [callbackArgs_append, List.length_append, h2]
      simp [callbackArgs]
      omega

/-- Run whose first terminal response is entry `attempts + n`, within budget:
one request and one callback per tick, ending with the terminal status. -/
theorem poll_reaches_terminal (remote : Nat → StatusResponse) (imageId : String)
    (interval maxAttempts : Int) (sts : Nat → Status) :
    ∀ (n attempts : Nat),
      (∀ i, attempts ≤ i → i ≤ attempts + n → getImageStatus (remote i) = .ok (sts i)) →
      (∀ i, attempts ≤ i → i < attempts + n → isTerminal (sts i) = false) →
      isTerminal (sts (attempts + n)) = true →
      ((attempts + n + 1 : Nat) : Int) ≤ maxAttempts →
      fetchCount (poll remote imageId interval maxAttempts attempts).1 = n + 1 ∧
      callbackArgs (poll remote imageId interval maxAttempts attempts).1 =
        (List.range' attempts (n + 1)).map sts ∧
      (poll remote imageId interval maxAttempts attempts).2 = .ok (sts (attempts + n)) := by
  intro n
  induction n with
  | zero =>
    intro attempts hr _ hT _
    rw [poll_terminal remote imageId interval maxAttempts attempts (sts attempts)
      (hr attempts (le_refl _) (by omega)) (by simpa using hT)]
    simp [fetchCount, callbackArgs]
  | succ n ih =>
    intro attempts hr hN hT hA
    have hA2 : (attempts : Int) + 1 < maxAttempts := by
      push_cast at hA
      omega
    have e1 : attempts + 1 + n = attempts + (n + 1) := by omega
    obtain ⟨h1, h2, h3⟩ := ih (attempts + 1)
      (fun i hi hin => hr i (by omega) (by omega))
      (fun i hi hin => hN i (by omega) (by omega))
      (by rw [e1]; exact hT)
      (by rw [e1]; exact hA)
    rw [poll_continue remote imageId interval maxAttempts attempts (sts attempts)
      (hr attempts (le_refl _) (by omega)) (hN attempts (le_refl _) (by omega)) hA2]
    refine ⟨?_, ?_, ?_⟩
    · rw [fetchCount_append, h1]
      simp [fetchCount]
      omega
    · rw [callbackArgs_append, h2]
      simp [callbackArgs, List.range'_succ]
    · rw [h3, e1]

/-- Run whose request number `attempts + d + 1` is made and throws `e`: the
trace ends right after that request's two `console.error` lines. -/
theorem poll_fetch_error (remote : Nat → StatusResponse) (imageId : String)
    (interval maxAttempts : Int) (e : Error) :
    ∀ (d attempts : Nat), getImageStatus (remote (attempts + d)) = .error e →
      d + 1 ≤ fetchCount (poll remote imageId interval maxAttempts attempts).1 →
      ∃ before, (poll remote imageId interval maxAttempts attempts).1 =
          before ++ [.getImageStatus imageId, .consoleError "Get status error:" e,
            .consoleError "Polling error:" e] ∧
        fetchCount before = d ∧ (callbackArgs before).length = d ∧
        (poll remote imageId interval maxAttempts attempts).2 = .error e := by
  intro d
  induction d with
  | zero =>
    intro attempts he _
    refine ⟨[], ?_, by simp [fetchCount], by simp [callbackArgs], ?_⟩ <;>
      rw [poll_error remote imageId interval maxAttempts attempts e (by simpa using he)]
    simp
  | succ d ih =>
    intro attempts he hc
    rcases poll_cases remote imageId interval maxAttempts attempts with
      ⟨e2, _, hp⟩ | ⟨st, _, _, hp⟩ | ⟨st, _, _, _, hp⟩ | ⟨st, _, _, hA, hp⟩
    · rw [hp] at hc; simp [fetchCount] at hc
    · rw [hp] at hc; simp [fetchCount] at hc
    · rw [hp] at hc; simp [fetchCount] at hc
    · have e1 : attempts + 1 + d = attempts + (d + 1) := by omega
      have hc2 : d + 1 ≤ fetchCount (poll remote imageId interval maxAttempts (attempts + 1)).1 := by
        rw [hp, fetchCount_append] at hc
        have h4 : fetchCount [Event.getImageStatus imageId, Event.callback st,
            Event.wait interval] = 1 := by simp [fetchCount]
        rw [h4] at hc
        omega
      obtain ⟨before, hb1, hb2, hb3, hb4⟩ := ih (attempts + 1) (by rw [e1]; exact he) hc2
      refine ⟨[.getImageStatus imageId, .callback st, .wait interval] ++ before, ?_, ?_, ?_, ?_⟩
      · rw [hp, hb1, List.append_assoc]
      · rw [fetchCount_append, hb2]
        simp [fetchCount]
        omega
      · rw [callbackArgs_append, List.length_append, hb3]
        simp [callbackArgs]
        omega
      · rw [hp, hb4]

/-! ## Concrete polls -/

theorem poll_completesSecond_supplied_zero :
    api.pollImageStatus completesSecond "img-1" (some 0) (some 5) =
      ([.getImageStatus "img-1", .callback processingStatus, .wait 2000,
        .getImageStatus "img-1", .callback completedStatus], .ok completedStatus) := by
  have h0 : getImageStatus (completesSecond 0) = .ok processingStatus := rfl
  have h1 : getImageStatus (completesSecond (0 + 1)) = .ok completedStatus := rfl
  show poll completesSecond "img-1" 2000 5 0 = _
  rw [poll_continue completesSecond "img-1" 2000 5 0 processingStatus h0 (by decide) (by decide),
    poll_terminal completesSecond "img-1" 2000 5 (0 + 1) completedStatus h1 (by decide)]
  rfl

theorem poll_failsThird :
    api.pollImageStatus failsThird "img-1" none none =
      ([.getImageStatus "img-1", .callback processingStatus, .wait 2000,
        .getImageStatus "img-1", .callback processingStatus, .wait 2000,
        .getImageStatus "img-1", .consoleError "Get status error:" ⟨"Failed to fetch"⟩,
        .consoleError "Polling error:" ⟨"Failed to fetch"⟩], .error ⟨"Failed to fetch"⟩) := by
  have h0 : getImageStatus (failsThird 0) = .ok processingStatus := rfl
  have h1 : getImageStatus (failsThird (0 + 1)) = .ok processingStatus := rfl
  have h2 : getImageStatus (failsThird (0 + 1 + 1)) = .error ⟨"Failed to fetch"⟩ := rfl
  show poll failsThird "img-1" 2000 60 0 = _
  rw [poll_continue failsThird "img-1" 2000 60 0 processingStatus h0 (by decide) (by decide),
    poll_continue failsThird "img-1" 2000 60 (0 + 1) processingStatus h1 (by decide) (by decide),
    poll_error failsThird "img-1" 2000 60 (0 + 1 + 1) ⟨"Failed to fetch"⟩ h2]
  rfl

theorem poll_reportsFailed :
    api.pollImageStatus reportsFailed "img-1" none none =
      ([.getImageStatus "img-1", .callback failedStatus], .ok failedStatus) := by
  have h0 : getImageStatus (reportsFailed 0) = .ok failedStatus := rfl
  show poll reportsFailed "img-1" 2000 60 0 = _
  rw [poll_terminal reportsFailed "img-1" 2000 60 0 failedStatus h0 (by decide)]

theorem neverTerminal_spec (N : Nat) :
    ∀ i, i < N → ∃ st, getImageStatus (neverTerminal i) = .ok st ∧ isTerminal st = false :=
  fun _ _ => ⟨processingStatus, rfl, by decide⟩

/-! ## Parameter defaults of `pollImageStatus` -/

theorem orDefault_some_ne (v d : Int) (h : v ≠ 0) : orDefault (some v) d = v := by
  simp [orDefault, h]

theorem orDefault_none (d : Int) : orDefault none d = d := rfl

theorem orDefault_zero (d : Int) : orDefault (some 0) d = d := by
  simp [orDefault]

/-! ## Polling engine (`pollImageStatus`) -/

/-- C3 (as stated) fails at N = 0: a supplied `maxAttempts` of 0 is falsy, the
configured 60 takes its place, and against a remote that never reaches a
terminal status the poll sends 60 status requests, which is more than 0. -/
theorem pollImageStatus_zero_budget_sends_sixty :
    fetchCount (api.pollImageStatus neverTerminal "img-1" none (some 0)).1 = 60 ∧
    ¬ ((fetchCount (api.pollImageStatus neverTerminal "img-1" none (some 0)).1 : Int) ≤ 0) := by
  have h := (poll_never_terminal neverTerminal "img-1" 2000 60 59 0 rfl
    (fun i _ hi => neverTerminal_spec 60 i hi)).1
  have e : api.pollImageStatus neverTerminal "img-1" none (some 0) =
      poll neverTerminal "img-1" 2000 ((60 : Nat) : Int) 0 := rfl
  rw [e, h]
  decide

/-- C3 (amended): for every supplied `maxAttempts = N` with `N ≥ 1`, every
configuration, interval and sequence of responses, `pollImageStatus` (a total
function, so every poll finishes) sends at most `N` status requests; when the
supplied value is 0 or absent, the configured `maxAttempts` is the budget
(with at least one request sent in any case). -/
theorem pollImageStatus_fetch_bound (self : ImageProcessorAPI) (remote : Nat → StatusResponse)
    (imageId : String) (interval : Option Int) (N : Int) (hN : 1 ≤ N) :
    (fetchCount (self.pollImageStatus remote imageId interval (some N)).1 : Int) ≤ N ∧
    fetchCount (self.pollImageStatus remote imageId interval (some 0)).1 ≤
      max 1 self.pollingConfig.maxAttempts.toNat ∧
    fetchCount (self.pollImageStatus remote imageId interval none).1 ≤
      max 1 self.pollingConfig.maxAttempts.toNat := by
  refine ⟨?_, ?_, ?_⟩
  · have h := fetchCount_poll_le remote imageId
      (orDefault interval self.pollingConfig.interval) N N.toNat 0 (by simp)
    have e : orDefault (some N) self.pollingConfig.maxAttempts = N :=
      orDefault_some_ne N _ (by omega)
    simp only [ImageProcessorAPI.pollImageStatus, e]
    omega
  · have h := fetchCount_poll_le remote imageId
      (orDefault interval self.pollingConfig.interval) self.pollingConfig.maxAttempts
      self.pollingConfig.maxAttempts.toNat 0 (by simp)
    simpa only [ImageProcessorAPI.pollImageStatus, orDefault_zero] using h
  · have h := fetchCount_poll_le remote imageId
      (orDefault interval self.pollingConfig.interval) self.pollingConfig.maxAttempts
      self.pollingConfig.maxAttempts.toNat 0 (by simp)
    simpa only [ImageProcessorAPI.pollImageStatus, orDefault_none] using h

theorem pollImageStatus_fetch_bound_witness :
    (1 : Int) ≤ 3 ∧
    (fetchCount (api.pollImageStatus neverTerminal "img-1" none (some 3)).1 : Int) ≤ 3 ∧
    fetchCount (api.pollImageStatus neverTerminal "img-1" none (some 0)).1 ≤
      max 1 api.pollingConfig.maxAttempts.toNat ∧
    fetchCount (api.pollImageStatus neverTerminal "img-1" none none).1 ≤
      max 1 api.pollingConfig.maxAttempts.toNat :=
  ⟨by decide, pollImageStatus_fetch_bound api neverTerminal "img-1" none 3 (by decide)⟩

/-- C4: for every `N ≥ 1` and every sequence of responses whose first `N`
entries are successful and not terminal, `pollImageStatus` with
`maxAttempts = N` sends exactly `N` status requests (one callback each) and
then rejects with the error `Polling timeout`; it does not return a status,
so the outcome differs from returning a remote status `failed`. -/
theorem pollImageStatus_timeout_after_budget (self : ImageProcessorAPI)
    (remote : Nat → StatusResponse) (imageId : String) (interval : Option Int) (N : Nat)
    (hN : 1 ≤ N)
    (hr : ∀ i, i < N → ∃ st, getImageStatus (remote i) = .ok st ∧ isTerminal st = false) :
    fetchCount (self.pollImageStatus remote imageId interval (some (N : Int))).1 = N ∧
    (callbackArgs (self.pollImageStatus remote imageId interval (some (N : Int))).1).length = N ∧
    (self.pollImageStatus remote imageId interval (some (N : Int))).2 = .error pollingTimeout ∧
    pollingTimeout.message = "Polling timeout" ∧
    (∀ st, (self.pollImageStatus remote imageId interval (some (N : Int))).2 ≠ .ok st) := by
  have e : orDefault (some (N : Int)) self.pollingConfig.maxAttempts = (N : Int) :=
    orDefault_some_ne _ _ (by omega)
  obtain ⟨h1, h2, h3⟩ := poll_never_terminal remote imageId
    (orDefault interval self.pollingConfig.interval) N (N - 1) 0 (by omega)
    (fun i _ hi => hr i hi)
  simp only [ImageProcessorAPI.pollImageStatus, e]
  refine ⟨by omega, by omega, h3, rfl, ?_⟩
  intro st
  rw [h3]
  simp

theorem pollImageStatus_timeout_after_budget_witness :
    1 ≤ 3 ∧
    (∀ i, i < 3 → ∃ st, getImageStatus (neverTerminal i) = .ok st ∧ isTerminal st = false) ∧
    fetchCount (api.pollImageStatus neverTerminal "img-1" (some 10) (some ((3 : Nat) : Int))).1
      = 3 ∧
    (callbackArgs
      (api.pollImageStatus neverTerminal "img-1" (some 10) (some ((3 : Nat) : Int))).1).length
      = 3 ∧
    (api.pollImageStatus neverTerminal "img-1" (some 10) (some ((3 : Nat) : Int))).2 =
      .error pollingTimeout ∧
    pollingTimeout.message = "Polling timeout" ∧
    (∀ st, (api.pollImageStatus neverTerminal "img-1" (some 10) (some ((3 : Nat) : Int))).2 ≠
      .ok st) :=
  ⟨by decide, neverTerminal_spec 3,
    pollImageStatus_timeout_after_budget api neverTerminal "img-1" (some 10) 3 (by decide)
      (neverTerminal_spec 3)⟩

/-- C6: for every `k ≥ 1`, if the `k`-th status request of a poll is made and
throws `e`, then the poll has sent exactly `k` requests, has invoked the
callback only for the `k - 1` earlier ticks, rejects with that same `e`, and
its trace ends with that request followed only by the two `console.error`
lines of the `catch` blocks. -/
theorem pollImageStatus_stops_on_fetch_error (self : ImageProcessorAPI)
    (remote : Nat → StatusResponse) (imageId : String) (interval maxAttempts : Option Int)
    (k : Nat) (e : Error) (hk : 1 ≤ k)
    (he : getImageStatus (remote (k - 1)) = .error e)
    (hcall : k ≤ fetchCount (self.pollImageStatus remote imageId interval maxAttempts).1) :
    fetchCount (self.pollImageStatus remote imageId interval maxAttempts).1 = k ∧
    (callbackArgs (self.pollImageStatus remote imageId interval maxAttempts).1).length = k - 1 ∧
    (self.pollImageStatus remote imageId interval maxAttempts).2 = .error e ∧
    (∃ before, (self.pollImageStatus remote imageId interval maxAttempts).1 =
        before ++ [.getImageStatus imageId, .consoleError "Get status error:" e,
          .consoleError "Polling error:" e] ∧
      fetchCount before = k - 1 ∧ (callbackArgs before).length = k - 1) := by
  have hd : k - 1 + 1 = k := by omega
  obtain ⟨before, hb1, hb2, hb3, hb4⟩ := poll_fetch_error remote imageId
    (orDefault interval self.pollingConfig.interval)
    (orDefault maxAttempts self.pollingConfig.maxAttempts) e (k - 1) 0
    (by simpa using he) (by rw [hd]; exact hcall)
  simp only [ImageProcessorAPI.pollImageStatus] at *
  refine ⟨?_, ?_, hb4, before, hb1, hb2, hb3⟩
  · rw [hb1, fetchCount_append, hb2]
    simp [fetchCount]
    omega
  · rw [hb1, callbackArgs_append, List.length_append, hb3]
    simp [callbackArgs]

theorem pollImageStatus_stops_on_fetch_error_witness :
    1 ≤ 3 ∧
    getImageStatus (failsThird (3 - 1)) = .error ⟨"Failed to fetch"⟩ ∧
    3 ≤ fetchCount (api.pollImageStatus failsThird "img-1" none none).1 ∧
    fetchCount (api.pollImageStatus failsThird "img-1" none none).1 = 3 ∧
    (callbackArgs (api.pollImageStatus failsThird "img-1" none none).1).length = 3 - 1 ∧
    (api.pollImageStatus failsThird "img-1" none none).2 = .error ⟨"Failed to fetch"⟩ ∧
    (∃ before, (api.pollImageStatus failsThird "img-1" none none).1 =
        before ++ [.getImageStatus "img-1", .consoleError "Get status error:" ⟨"Failed to fetch"⟩,
          .consoleError "Polling error:" ⟨"Failed to fetch"⟩] ∧
      fetchCount before = 3 - 1 ∧ (callbackArgs before).length = 3 - 1) :=
  have hcall : 3 ≤ fetchCount (api.pollImageStatus failsThird "img-1" none none).1 := by
    rw [poll_failsThird]
    decide
  ⟨by decide, rfl, hcall,
    pollImageStatus_stops_on_fetch_error api failsThird "img-1" none none 3 ⟨"Failed to fetch"⟩
      (by decide) rfl hcall⟩

/-- C7: for every sequence of responses whose first `k` entries are
successful, with the first terminal status (`completed` or `failed`) at
position `k` and `k ≤ maxAttempts`, `pollImageStatus` sends exactly `k`
status requests, invokes the callback once per tick with the statuses
`1..k` in order (the terminal one included), and returns the `k`-th status. -/
theorem pollImageStatus_returns_first_terminal (self : ImageProcessorAPI)
    (remote : Nat → StatusResponse) (imageId : String) (interval : Option Int) (N : Int)
    (k : Nat) (sts : Nat → Status) (hk : 1 ≤ k) (hkN : (k : Int) ≤ N)
    (hr : ∀ i, i < k → getImageStatus (remote i) = .ok (sts i))
    (hn : ∀ i, i < k - 1 → isTerminal (sts i) = false)
    (ht : isTerminal (sts (k - 1)) = true) :
    fetchCount (self.pollImageStatus remote imageId interval (some N)).1 = k ∧
    callbackArgs (self.pollImageStatus remote imageId interval (some N)).1 =
      (List.range k).map sts ∧
    (self.pollImageStatus remote imageId interval (some N)).2 = .ok (sts (k - 1)) := by
  have e : orDefault (some N) self.pollingConfig.maxAttempts = N :=
    orDefault_some_ne _ _ (by omega)
  have hd : k - 1 + 1 = k := by omega
  obtain ⟨h1, h2, h3⟩ := poll_reaches_terminal remote imageId
    (orDefault interval self.pollingConfig.interval) N sts (k - 1) 0
    (fun i _ hi => hr i (by omega))
    (fun i _ hi => hn i (by omega))
    (by simpa using ht)
    (by rw [Nat.zero_add, hd]; exact hkN)
  simp only [ImageProcessorAPI.pollImageStatus, e]
  rw [Nat.zero_add] at h3
  rw [hd] at h1 h2
  exact ⟨h1, by rw [h2, List.range_eq_range'], h3⟩

theorem completesSecond_spec (i : Nat) :
    getImageStatus (completesSecond i) = .ok (completesSecondStatuses i) := by
  unfold completesSecond completesSecondStatuses
  split <;> rfl

theorem pollImageStatus_returns_first_terminal_witness :
    1 ≤ 2 ∧ ((2 : Nat) : Int) ≤ 5 ∧
    (∀ i, i < 2 → getImageStatus (completesSecond i) = .ok (completesSecondStatuses i)) ∧
    (∀ i, i < 2 - 1 → isTerminal (completesSecondStatuses i) = false) ∧
    isTerminal (completesSecondStatuses (2 - 1)) = true ∧
    fetchCount (api.pollImageStatus completesSecond "img-1" none (some 5)).1 = 2 ∧
    callbackArgs (api.pollImageStatus completesSecond "img-1" none (some 5)).1 =
      (List.range 2).map completesSecondStatuses ∧
    (api.pollImageStatus completesSecond "img-1" none (some 5)).2 =
      .ok (completesSecondStatuses (2 - 1)) :=
  have hn : ∀ i, i < 2 - 1 → isTerminal (completesSecondStatuses i) = false := by
    intro i hi
    have h0 : i = 0 := by omega
    subst h0
    decide
  ⟨by decide, by decide, fun i _ => completesSecond_spec i, hn, by decide,
    pollImageStatus_returns_first_terminal api completesSecond "img-1" none 5 2
      completesSecondStatuses (by decide) (by decide) (fun i _ => completesSecond_spec i) hn
      (by decide)⟩

/-- C8 (as stated) fails for a supplied value of 0: called with interval 0
and maxAttempts 5, the poll waits 2000 ms between its two ticks, not the
0 ms the caller supplied. -/
theorem pollImageStatus_supplied_zero_interval_replaced :
    waits (api.pollImageStatus completesSecond "img-1" (some 0) (some 5)).1 = [2000] ∧
    waits (api.pollImageStatus completesSecond "img-1" (some 0) (some 5)).1 ≠ [0] := by
  rw [poll_completesSecond_supplied_zero]
  decide

/-- C8 (amended): `pollImageStatus` runs with exactly the interval and the
maxAttempts the caller supplies whenever the supplied value is non-zero (every
inter-tick wait lasts the supplied interval and the supplied maxAttempts is
the attempt budget), and runs with interval 2000 ms, respectively
maxAttempts 60, when the caller supplies none or supplies 0. -/
theorem pollImageStatus_parameters (remote : Nat → StatusResponse) (imageId : String)
    (interval maxAttempts : Int) (other : Option Int)
    (hi : interval ≠ 0) (hm : maxAttempts ≠ 0) :
    api.pollImageStatus remote imageId (some interval) (some maxAttempts) =
      poll remote imageId interval maxAttempts 0 ∧
    api.pollImageStatus remote imageId (some interval) other =
      poll remote imageId interval (orDefault other 60) 0 ∧
    api.pollImageStatus remote imageId other (some maxAttempts) =
      poll remote imageId (orDefault other 2000) maxAttempts 0 ∧
    (∀ w ∈ waits (api.pollImageStatus remote imageId (some interval) other).1, w = interval) ∧
    fetchCount (api.pollImageStatus remote imageId other (some maxAttempts)).1 ≤
      max 1 maxAttempts.toNat ∧
    api.pollImageStatus remote imageId none other =
      poll remote imageId 2000 (orDefault other 60) 0 ∧
    api.pollImageStatus remote imageId (some 0) other =
      poll remote imageId 2000 (orDefault other 60) 0 ∧
    api.pollImageStatus remote imageId other none =
      poll remote imageId (orDefault other 2000) 60 0 ∧
    api.pollImageStatus remote imageId other (some 0) =
      poll remote imageId (orDefault other 2000) 60 0 ∧
    (∀ w ∈ waits (api.pollImageStatus remote imageId none other).1, w = 2000) ∧
    fetchCount (api.pollImageStatus remote imageId other none).1 ≤ 60 := by
  have ei : ∀ d, orDefault (some interval) d = interval := fun d => orDefault_some_ne _ d hi
  have em : ∀ d, orDefault (some maxAttempts) d = maxAttempts :=
    fun d => orDefault_some_ne _ d hm
  simp only [ImageProcessorAPI.pollImageStatus, api, CONFIG.api.polling, ei, em, orDefault_none,
    orDefault_zero, true_and]
  refine ⟨?_, ?_, ?_, ?_⟩
  · exact waits_poll remote imageId interval _ _ 0 (le_refl _)
  · exact fetchCount_poll_le remote imageId _ maxAttempts maxAttempts.toNat 0 (by simp)
  · exact waits_poll remote imageId 2000 _ _ 0 (le_refl _)
  · exact fetchCount_poll_le remote imageId _ 60 60 0 (by simp)

theorem pollImageStatus_parameters_witness :
    (10 : Int) ≠ 0 ∧ (3 : Int) ≠ 0 ∧
    api.pollImageStatus neverTerminal "img-1" (some 10) (some 3) =
      poll neverTerminal "img-1" 10 3 0 ∧
    api.pollImageStatus neverTerminal "img-1" (some 10) none =
      poll neverTerminal "img-1" 10 (orDefault none 60) 0 ∧
    api.pollImageStatus neverTerminal "img-1" none (some 3) =
      poll neverTerminal "img-1" (orDefault none 2000) 3 0 ∧
    (∀ w ∈ waits (api.pollImageStatus neverTerminal "img-1" (some 10) none).1, w = 10) ∧
    fetchCount (api.pollImageStatus neverTerminal "img-1" none (some 3)).1 ≤
      max 1 (3 : Int).toNat ∧
    api.pollImageStatus neverTerminal "img-1" none none =
      poll neverTerminal "img-1" 2000 (orDefault none 60) 0 ∧
    api.pollImageStatus neverTerminal "img-1" (some 0) none =
      poll neverTerminal "img-1" 2000 (orDefault none 60) 0 ∧
    api.pollImageStatus neverTerminal "img-1" none none =
      poll neverTerminal "img-1" (orDefault none 2000) 60 0 ∧
    api.pollImageStatus neverTerminal "img-1" none (some 0) =
      poll neverTerminal "img-1" (orDefault none 2000) 60 0 ∧
    (∀ w ∈ waits (api.pollImageStatus neverTerminal "img-1" none none).1, w = 2000) ∧
    fetchCount (api.pollImageStatus neverTerminal "img-1" none none).1 ≤ 60 :=
  ⟨by decide, by decide,
    pollImageStatus_parameters neverTerminal "img-1" 10 3 none (by decide) (by decide)⟩

/-! ## Submission workflow (`handleUpload`) -/

theorem handleUpload_no_file (s : AppState) (form : OperationsForm) (upload : UploadResponse)
    (remote : Nat → StatusResponse) (h : s.selectedFile = none) :
    handleUpload s form upload remote =
      (s, [.showToast "Пожалуйста, выберите изображение" "error"]) := by
  simp only [handleUpload, h]

theorem handleUpload_no_operations (s : AppState) (form : OperationsForm)
    (upload : UploadResponse) (remote : Nat → StatusResponse) (file : File)
    (hs : s.selectedFile = some file) (ho : getSelectedOperations form = []) :
    handleUpload s form upload remote =
      (s, [.showToast "Пожалуйста, выберите хотя бы одну операцию" "error"]) := by
  simp only [handleUpload, hs, ho, List.length_nil, if_true]

theorem handleUpload_upload_error (s : AppState) (form : OperationsForm)
    (upload : UploadResponse) (remote : Nat → StatusResponse) (file : File) (e : Error)
    (hs : s.selectedFile = some file) (ho : getSelectedOperations form ≠ [])
    (hu : uploadImage upload = .error e) :
    handleUpload s form upload remote =
      (s, [ .toggleElement "operationsPanel" false,
            .toggleElement "progressSection" true,
            .updateProgress 0 "Загрузка изображения..." "pending",
            .updateProgress 30 "Загрузка на сервер..." "uploading",
            .uploadImage file (getSelectedOperations form),
            .consoleError "Upload error:" e ] ++ handleUploadCatch e) := by
  have hl : ¬ (getSelectedOperations form).length = 0 := by
    simpa [List.length_eq_zero] using ho
  simp only [handleUpload, hs, hl, if_false, hu, uploadImageLog]
  rfl

theorem handleUpload_poll_ok (s : AppState) (form : OperationsForm)
    (upload : UploadResponse) (remote : Nat → StatusResponse) (file : File)
    (result : UploadResult) (status : Status)
    (hs : s.selectedFile = some file) (ho : getSelectedOperations form ≠ [])
    (hu : uploadImage upload = .ok result)
    (hp : (api.pollImageStatus remote result.id none none).2 = .ok status) :
    handleUpload s form upload remote =
      ({ s with currentImageId := some result.id },
        [ .toggleElement "operationsPanel" false,
          .toggleElement "progressSection" true,
          .updateProgress 0 "Загрузка изображения..." "pending",
          .updateProgress 30 "Загрузка на сервер..." "uploading",
          .uploadImage file (getSelectedOperations form),
          .updateProgress 50 "Обработка изображения..." "processing",
          .showToast "Изображение загружено, начинается обработка" "success" ] ++
        withProgressCallback (getSelectedOperations form)
          (api.pollImageStatus remote result.id none none).1 ++
        [ .updateProgress 100 "Обработка завершена!" "completed",
          .showToast "Изображение успешно обработано!" "success",
          .setTimeout 200
            [ .toggleElement "progressSection" false,
              .toggleElement "resultsSection" true,
              .displayResults (some result.id) (getSelectedOperations form) ] ]) := by
  have hl : ¬ (getSelectedOperations form).length = 0 := by
    simpa [List.length_eq_zero] using ho
  simp only [handleUpload, hs, hl, if_false, hu, uploadImageLog, hp]
  simp

/-- C5 is violated by the code: with the upload accepted and the first status
response reporting `failed`, the poll returns that status normally and
`handleUpload` goes on to emit the snapshot tagged `completed` after the one
tagged `failed`, and schedules the results view. -/
theorem handleUpload_remote_failed_ends_completed :
    (api.pollImageStatus reportsFailed "img-1" none none).2 = .ok failedStatus ∧
    failedStatus.status = "failed" ∧
    snapshotTags (handleUpload stateWithPng thumbnailForm uploadAccepted reportsFailed).2 =
      ["pending", "uploading", "processing", "failed", "completed"] ∧
    (snapshotTags (handleUpload stateWithPng thumbnailForm uploadAccepted reportsFailed).2).getLast?
      = some "completed" ∧
    showsResults (handleUpload stateWithPng thumbnailForm uploadAccepted reportsFailed).2
      = true := by
  have hp : (api.pollImageStatus reportsFailed (UploadResult.mk "img-1").id none none).2 =
      .ok failedStatus := by
    show (api.pollImageStatus reportsFailed "img-1" none none).2 = _
    rw [poll_reportsFailed]
  have h := handleUpload_poll_ok stateWithPng thumbnailForm uploadAccepted reportsFailed
    ⟨"cat.png", "image/png", 5⟩ ⟨"img-1"⟩ failedStatus rfl (by decide) rfl hp
  have hq : api.pollImageStatus reportsFailed (UploadResult.mk "img-1").id none none =
      ([.getImageStatus "img-1", .callback failedStatus], .ok failedStatus) :=
    poll_reportsFailed
  rw [hq] at h
  rw [h, poll_reportsFailed]
  exact ⟨rfl, rfl, by decide, by decide, by decide⟩

/-- C9: whenever no file is selected, or a file is selected but the selected
operation sequence is empty, `handleUpload` only shows one error toast: it
sends no request (no `uploadImage`, no `getImageStatus`) and leaves the whole
state, `selectedFile` and `currentImageId` included, as it was. -/
theorem handleUpload_guard_failure (s : AppState) (form : OperationsForm)
    (upload : UploadResponse) (remote : Nat → StatusResponse)
    (h : s.selectedFile = none ∨ getSelectedOperations form = []) :
    (handleUpload s form upload remote).1 = s ∧
    (handleUpload s form upload remote).1.selectedFile = s.selectedFile ∧
    (handleUpload s form upload remote).1.currentImageId = s.currentImageId ∧
    (handleUpload s form upload remote).2.all (fun ev => !ev.isNetworkCall) = true ∧
    fetchCount (handleUpload s form upload remote).2 = 0 ∧
    (∃ message, (handleUpload s form upload remote).2 = [.showToast message "error"]) := by
  cases hs : s.selectedFile with
  | none =>
    rw [handleUpload_no_file s form upload remote hs]
    simp [Event.isNetworkCall, fetchCount, hs]
  | some file =>
    have ho : getSelectedOperations form = [] := by
      rcases h with h | h
      · rw [hs] at h
        exact absurd h (by simp)
      · exact h
    rw [handleUpload_no_operations s form upload remote file hs ho]
    simp [Event.isNetworkCall, fetchCount, hs]

theorem handleUpload_guard_failure_witness :
    (stateWithPng.selectedFile = none ∨ getSelectedOperations emptyForm = []) ∧
    (handleUpload stateWithPng emptyForm uploadAccepted neverTerminal).1 = stateWithPng ∧
    (handleUpload stateWithPng emptyForm uploadAccepted neverTerminal).1.selectedFile =
      stateWithPng.selectedFile ∧
    (handleUpload stateWithPng emptyForm uploadAccepted neverTerminal).1.currentImageId =
      stateWithPng.currentImageId ∧
    (handleUpload stateWithPng emptyForm uploadAccepted neverTerminal).2.all
      (fun ev => !ev.isNetworkCall) = true ∧
    fetchCount (handleUpload stateWithPng emptyForm uploadAccepted neverTerminal).2 = 0 ∧
    (∃ message, (handleUpload stateWithPng emptyForm uploadAccepted neverTerminal).2 =
      [.showToast message "error"]) :=
  ⟨Or.inr (by decide),
    handleUpload_guard_failure stateWithPng emptyForm uploadAccepted neverTerminal
      (Or.inr (by decide))⟩

/-- C10: for every run of `handleUpload` that reaches the upload (a file is
selected and at least one operation is chosen) and whose `uploadImage` throws,
the snapshots emitted are `pending`, `uploading` and finally `failed`, no
`getImageStatus` request is sent, and the state is unchanged: `selectedFile`
still holds the file and `currentImageId` keeps its previous value. -/
theorem handleUpload_upload_failure (s : AppState) (form : OperationsForm)
    (upload : UploadResponse) (remote : Nat → StatusResponse) (file : File) (e : Error)
    (hs : s.selectedFile = some file) (ho : getSelectedOperations form ≠ [])
    (hu : uploadImage upload = .error e) :
    snapshotTags (handleUpload s form upload remote).2 = ["pending", "uploading", "failed"] ∧
    fetchCount (handleUpload s form upload remote).2 = 0 ∧
    (handleUpload s form upload remote).1.selectedFile = some file ∧
    (handleUpload s form upload remote).1.currentImageId = s.currentImageId ∧
    (handleUpload s form upload remote).1 = s ∧
    showsResults (handleUpload s form upload remote).2 = false := by
  rw [handleUpload_upload_error s form upload remote file e hs ho hu]
  simp [snapshotTags, fetchCount, showsResults, handleUploadCatch, hs]

theorem handleUpload_upload_failure_witness :
    stateWithPng.selectedFile = some ⟨"cat.png", "image/png", 5⟩ ∧
    getSelectedOperations thumbnailForm ≠ [] ∧
    uploadImage uploadRefused = .error ⟨"storage unavailable"⟩ ∧
    snapshotTags (handleUpload stateWithPng thumbnailForm uploadRefused neverTerminal).2 =
      ["pending", "uploading", "failed"] ∧
    fetchCount (handleUpload stateWithPng thumbnailForm uploadRefused neverTerminal).2 = 0 ∧
    (handleUpload stateWithPng thumbnailForm uploadRefused neverTerminal).1.selectedFile =
      some ⟨"cat.png", "image/png", 5⟩ ∧
    (handleUpload stateWithPng thumbnailForm uploadRefused neverTerminal).1.currentImageId =
      stateWithPng.currentImageId ∧
    (handleUpload stateWithPng thumbnailForm uploadRefused neverTerminal).1 = stateWithPng ∧
    showsResults (handleUpload stateWithPng thumbnailForm uploadRefused neverTerminal).2
      = false :=
  ⟨rfl, by decide, rfl,
    handleUpload_upload_failure stateWithPng thumbnailForm uploadRefused neverTerminal
      ⟨"cat.png", "image/png", 5⟩ ⟨"storage unavailable"⟩ rfl (by decide) rfl⟩

/-! ## Reset (`resetUploadSection`) -/

/-- C11: from every state, `resetUploadSection` yields a state whose
`currentImageId` and `selectedFile` are both null (the page index is left as
it was), and resetting twice gives the same state as resetting once. -/
theorem resetUploadSection_clears (s : AppState) :
    (resetUploadSection s).1.currentImageId = none ∧
    (resetUploadSection s).1.selectedFile = none ∧
    (resetUploadSection s).1.currentPage = s.currentPage ∧
    (resetUploadSection (resetUploadSection s).1).1 = (resetUploadSection s).1 :=
  ⟨rfl, rfl, rfl, rfl⟩

/-! ## Pagination (`updatePagination`) -/

theorem totalPagesOf_le_iff (total j : Nat) : totalPagesOf total ≤ j ↔ total ≤ 12 * j := by
  unfold totalPagesOf PAGE_SIZE
  rw [Nat.ceil_le, div_le_iff₀ (by norm_num)]
  simp only [Nat.cast_ofNat]
  constructor
  · intro h
    have h2 : ((total : ℕ) : ℚ) ≤ ((12 * j : ℕ) : ℚ) := by
      push_cast
      linarith
    exact_mod_cast h2
  · intro h
    have h2 : ((total : ℕ) : ℚ) ≤ ((12 * j : ℕ) : ℚ) := by exact_mod_cast h
    push_cast at h2
    linarith

theorem totalPagesOf_eq (total : Nat) : totalPagesOf total = (total + 11) / 12 := by
  apply le_antisymm
  · rw [totalPagesOf_le_iff]
    omega
  · have h := (totalPagesOf_le_iff total (totalPagesOf total)).mp (le_refl _)
    omega

/-- C12 (as stated) fails for a single page: for a total of 5 the page count
is 1, yet `updatePagination` renders no control where the claim expects the
one control for page index 0. -/
theorem updatePagination_single_page_renders_nothing :
    totalPagesOf 5 = 1 ∧
    updatePagination 5 0 = [] ∧
    updatePagination 5 0 ≠
      (List.range (totalPagesOf 5)).map
        (fun i => ({ page := i, label := i + 1, active := i == 0 } : PageButton)) := by
  have h : totalPagesOf 5 = 1 := by rw [totalPagesOf_eq]
  have h2 : updatePagination 5 0 = [] := by
    simp only [updatePagination, h, le_refl, if_true]
  rw [h2, h]
  exact ⟨rfl, rfl, by decide⟩

/-- C12 (amended): for every total, the page count computed by
`updatePagination` is the least `k` with `12 * k ≥ total`, that is
`ceil(total / 12)`; when the total exceeds 12 (two pages or more) the
controls rendered are exactly the zero-based page indices `0..k-1`, labelled
`1..k`, one per page, the current one marked active; when the total is at most
12 (at most one page) no control is rendered. -/
theorem updatePagination_pages (total few currentPage : Nat) (hMany : 12 < total)
    (hFew : few ≤ 12) :
    total ≤ 12 * totalPagesOf total ∧
    (∀ j, totalPagesOf total ≤ j ↔ total ≤ 12 * j) ∧
    updatePagination total currentPage =
      (List.range (totalPagesOf total)).map
        (fun i => ({ page := i, label := i + 1, active := i == currentPage } : PageButton)) ∧
    (updatePagination total currentPage).length = totalPagesOf total ∧
    (updatePagination total currentPage).map (fun b => b.page) =
      List.range (totalPagesOf total) ∧
    few ≤ 12 * totalPagesOf few ∧
    (∀ j, totalPagesOf few ≤ j ↔ few ≤ 12 * j) ∧
    updatePagination few currentPage = [] := by
  have hk : ¬ totalPagesOf total ≤ 1 := by
    rw [totalPagesOf_le_iff]
    omega
  have hf : totalPagesOf few ≤ 1 := by
    rw [totalPagesOf_le_iff]
    omega
  have e1 : updatePagination total currentPage =
      (List.range (totalPagesOf total)).map
        (fun i => ({ page := i, label := i + 1, active := i == currentPage } : PageButton)) := by
    simp only [updatePagination, hk, if_false]
  have e2 : updatePagination few currentPage = [] := by
    simp only [updatePagination, hf, if_true]
  refine ⟨(totalPagesOf_le_iff total _).mp (le_refl _), totalPagesOf_le_iff total, e1, ?_, ?_,
    (totalPagesOf_le_iff few _).mp (le_refl _), totalPagesOf_le_iff few, e2⟩
  · rw [e1]
    simp
  · rw [e1, List.map_map]
    exact List.map_id _

theorem updatePagination_pages_witness :
    12 < 30 ∧ 5 ≤ 12 ∧
    30 ≤ 12 * totalPagesOf 30 ∧
    (∀ j, totalPagesOf 30 ≤ j ↔ 30 ≤ 12 * j) ∧
    updatePagination 30 1 =
      (List.range (totalPagesOf 30)).map
        (fun i => ({ page := i, label := i + 1, active := i == 1 } : PageButton)) ∧
    (updatePagination 30 1).length = totalPagesOf 30 ∧
    (updatePagination 30 1).map (fun b => b.page) = List.range (totalPagesOf 30) ∧
    5 ≤ 12 * totalPagesOf 5 ∧
    (∀ j, totalPagesOf 5 ≤ j ↔ 5 ≤ 12 * j) ∧
    updatePagination 5 1 = [] :=
  ⟨by decide, by decide, updatePagination_pages 30 5 1 (by decide) (by decide)⟩

/-! ## Health probe (`healthCheck`) -/

/-- C15: `healthCheck` never throws: for every outcome of the request it
resolves to a boolean, the `ok` flag of the response when one is received and
`false` when the request raises an error. -/
theorem healthCheck_never_fails (resp : HealthResponse) (ok : Bool) (e : Error) :
    (∃ b, healthCheck resp = .ok b) ∧
    healthCheck (.response ok) = .ok ok ∧
    healthCheck (.networkError e) = .ok false := by
  refine ⟨?_, rfl, rfl⟩
  cases resp with
  | networkError e2 => exact ⟨false, rfl⟩
  | response ok2 => exact ⟨ok2, rfl⟩

/-! ## Gallery (`loadGallery`, `filterGalleryBySearch`) -/

/-- C13: with the remote list returning the slice `[offset, offset + limit)`
of a collection of `totalCount` records, for every page index
`k ≥ ceil(totalCount / 12)` the call `loadGallery('all', k)` requests limit 12
at offset `12 * k` and ends in the empty state `Нет изображений` with no record
shown: no error state, no error toast. The same holds when the remote sends
`images: null` for the empty slice. -/
theorem loadGallery_beyond_last_page (headingText : String → String) (dom : GalleryDom) (collection : List ImageRecord)
    (k : Nat) (hk : totalPagesOf collection.length ≤ k) :
    loadGallery headingText dom "all" k (listSlice collection) =
      ({ dom with galleryGrid := .emptyState "Нет изображений" "fa-images" },
        [.listImages 12 (12 * k)]) ∧
    visibleRecords (loadGallery headingText dom "all" k (listSlice collection)).1 = [] ∧
    loadGallery headingText dom "all" k
        (fun _ _ => .ok (.ok { images := none, count := collection.length })) =
      ({ dom with galleryGrid := .emptyState "Нет изображений" "fa-images" },
        [.listImages 12 (12 * k)]) := by
  have hlen : collection.length ≤ k * 12 := by
    have := (totalPagesOf_le_iff _ _).mp hk
    omega
  have hslice : (collection.drop (12 * k)).take 12 = [] := by
    rw [List.drop_eq_nil_of_le (by omega)]
    rfl
  have hcomm : k * 12 = 12 * k := Nat.mul_comm _ _
  have h1 : loadGallery headingText dom "all" k (listSlice collection) =
      ({ dom with galleryGrid := .emptyState "Нет изображений" "fa-images" },
        [.listImages 12 (12 * k)]) := by
    simp only [loadGallery, listSlice, listImages, listImagesLog, PAGE_SIZE, hslice,
      List.length_nil, if_true, hcomm]
  refine ⟨h1, ?_, ?_⟩
  · rw [h1]
    rfl
  · simp only [loadGallery, listImages, listImagesLog, PAGE_SIZE, hcomm]

theorem loadGallery_beyond_last_page_witness :
    totalPagesOf oneRecord.length ≤ 1 ∧
    loadGallery legacyEntityText ⟨.loader, []⟩ "all" 1 (listSlice oneRecord) =
      ({ (⟨.loader, []⟩ : GalleryDom) with
          galleryGrid := .emptyState "Нет изображений" "fa-images" },
        [.listImages 12 (12 * 1)]) ∧
    visibleRecords (loadGallery legacyEntityText ⟨.loader, []⟩ "all" 1 (listSlice oneRecord)).1 = [] ∧
    loadGallery legacyEntityText ⟨.loader, []⟩ "all" 1
        (fun _ _ => .ok (.ok { images := none, count := oneRecord.length })) =
      ({ (⟨.loader, []⟩ : GalleryDom) with
          galleryGrid := .emptyState "Нет изображений" "fa-images" },
        [.listImages 12 (12 * 1)]) :=
  have h1 : totalPagesOf oneRecord.length ≤ 1 := by
    rw [totalPagesOf_le_iff]
    decide
  ⟨h1, loadGallery_beyond_last_page legacyEntityText ⟨.loader, []⟩ oneRecord 1 h1⟩

theorem visibleRecords_search_items (toLowerCase headingText : String → String)
    (pagination : List PageButton) (images : List ImageRecord) (query : String) :
    visibleRecords (filterGalleryBySearch toLowerCase
        ⟨.items (images.map (createGalleryItem headingText)), pagination⟩ query) =
      images.filter (fun r => includes (toLowerCase (headingText r.filename)) query) := by
  simp only [filterGalleryBySearch, visibleRecords, List.map_map]
  induction images with
  | nil => rfl
  | cons r rest ih =>
    simp only [List.map_cons, List.filter_cons, Function.comp, createGalleryItem]
    cases h : includes (toLowerCase (headingText r.filename)) query <;> simp [h] <;>
      simpa using ih

/-- What the code displays after `loadGallery(f, page)` followed by the search
handler with `q`: the records of the page whose status equals `f` (all of
them when `f` is `all`) and whose lower-cased heading text, not file name,
includes the lower-cased `q`, in their original order; the search step
performs no effect at all. -/
theorem visibleRecords_search_after_loadGallery (toLowerCase headingText : String → String)
    (dom : GalleryDom) (f q : String) (page : Nat) (result : ListResult) :
    visibleRecords
        (searchHandler toLowerCase
          (loadGallery headingText dom f page (fun _ _ => .ok (.ok result))).1 q).1 =
      (result.images.getD []).filter
        (fun r => (f == "all" || r.status == f) &&
          includes (toLowerCase (headingText r.filename)) (toLowerCase q)) ∧
    (searchHandler toLowerCase
      (loadGallery headingText dom f page (fun _ _ => .ok (.ok result))).1 q).2 = [] := by
  refine ⟨?_, rfl⟩
  cases himg : result.images with
  | none =>
    simp only [loadGallery, listImages, himg, searchHandler, filterGalleryBySearch,
      visibleRecords, Option.getD_none, List.filter_nil]
  | some all =>
    by_cases hall : all.length = 0
    · have hnil : all = [] := List.length_eq_zero.mp hall
      subst hnil
      simp only [loadGallery, listImages, himg, searchHandler, filterGalleryBySearch,
        visibleRecords, Option.getD_some, List.filter_nil, List.length_nil, if_true]
    · by_cases hf : f = "all"
      · subst hf
        simp only [loadGallery, listImages, himg, hall, if_false, searchHandler,
          Option.getD_some, ne_eq, not_true_eq_false]
        rw [visibleRecords_search_items]
        simp
      · simp only [loadGallery, listImages, himg, hall, if_false, searchHandler,
          Option.getD_some, ne_eq, hf, not_false_eq_true, if_true]
        rw [visibleRecords_search_items, List.filter_filter]
        congr 1
        funext r
        have hb : (f == "all") = false := by simpa using hf
        simp [hb, Bool.and_comm]

/-- C14 is violated by the code: the page holds one completed record named
`cut&copy.png`; its status equals the filter `completed` and its file name
contains `copy`, yet after `loadGallery('completed', 0)` and a search for
`copy` no record is displayed, because the search reads the heading text
`cut©.png` that the unescaped `innerHTML` write produced. -/
theorem search_hides_name_with_character_reference :
    cutCopyPage.images = some [cutCopyRecord] ∧
    cutCopyRecord.status = "completed" ∧
    includes (asciiLower cutCopyRecord.filename) (asciiLower "copy") = true ∧
    visibleRecords
        (loadGallery legacyEntityText ⟨.loader, []⟩ "completed" 0
          (fun _ _ => .ok (.ok cutCopyPage))).1 = [cutCopyRecord] ∧
    visibleRecords
        (searchHandler asciiLower
          (loadGallery legacyEntityText ⟨.loader, []⟩ "completed" 0
            (fun _ _ => .ok (.ok cutCopyPage))).1 "copy").1 = [] ∧
    (searchHandler asciiLower
      (loadGallery legacyEntityText ⟨.loader, []⟩ "completed" 0
        (fun _ _ => .ok (.ok cutCopyPage))).1 "copy").2 = [] := by
  refine ⟨rfl, rfl, by decide, by decide, ?_, rfl⟩
  rw [(visibleRecords_search_after_loadGallery asciiLower legacyEntityText ⟨.loader, []⟩
    "completed" "copy" 0 cutCopyPage).1]
  decide

/-! ## Drag-and-drop and file input -/

theorem whitelisted_startsWith_image (t : String)
    (h : t ∈ ["image/jpeg", "image/jpg", "image/png", "image/gif", "image/webp"]) :
    startsWith t "image/" = true := by
  simp only [List.mem_cons, List.mem_singleton, List.not_mem_nil, or_false] at h
  rcases h with h | h | h | h | h <;> subst h <;> decide

/-- C18: the drop path and the file-input path accept exactly the same files:
for every state and file, the drop listener (pre-check `type` starts with
`image/`, then `handleFileSelect`) leaves the same state as the `change`
listener, takes the accepting path exactly when `handleFileSelect` alone does,
and every whitelisted MIME type starts with `image/`. -/
theorem dropHandler_accepts_same_files (s : AppState) (file : File) :
    (dropHandler s (some file)).1 = (changeHandler s (some file)).1 ∧
    (dropHandler s (some file)).1 = (handleFileSelect s file).1 ∧
    ((dropHandler s (some file)).1.selectedFile = some file ↔
      (handleFileSelect s file).1.selectedFile = some file) ∧
    (dropHandler s (some file) = ({ s with selectedFile := some file }, [.readAsDataURL file]) ↔
      handleFileSelect s file = ({ s with selectedFile := some file }, [.readAsDataURL file])) ∧
    ["image/jpeg", "image/jpg", "image/png", "image/gif", "image/webp"].all
      (fun t => startsWith t "image/") = true := by
  have hstate : (dropHandler s (some file)).1 = (handleFileSelect s file).1 ∧
      (dropHandler s (some file) = ({ s with selectedFile := some file }, [.readAsDataURL file]) ↔
        handleFileSelect s file =
          ({ s with selectedFile := some file }, [.readAsDataURL file])) := by
    by_cases hw : file.type ∈ ["image/jpeg", "image/jpg", "image/png", "image/gif", "image/webp"]
    · have hd : dropHandler s (some file) = handleFileSelect s file := by
        simp only [dropHandler, whitelisted_startsWith_image file.type hw, if_true]
      rw [hd]
      exact ⟨rfl, Iff.rfl⟩
    · cases hp : startsWith file.type "image/" with
      | true =>
        have hd : dropHandler s (some file) = handleFileSelect s file := by
          simp only [dropHandler, hp, if_true]
        rw [hd]
        exact ⟨rfl, Iff.rfl⟩
      | false =>
        have hd : dropHandler s (some file) =
            (s, [.showToast "Пожалуйста, выберите изображение" "error"]) := by
          simp only [dropHandler, hp, Bool.false_eq_true, if_false]
        rw [hd]
        rcases handleFileSelect_invalid s file (Or.inl hw) with h | h <;> rw [h] <;> simp
  refine ⟨hstate.1, hstate.1, ?_, hstate.2, by decide⟩
  rw [hstate.1]

/-! ## Snapshots emitted by `handleUpload` -/

theorem percentages_append (xs ys : List Event) :
    percentages (xs ++ ys) = percentages xs ++ percentages ys := by
  simp [percentages]

theorem snapshotTags_append (xs ys : List Event) :
    snapshotTags (xs ++ ys) = snapshotTags xs ++ snapshotTags ys := by
  simp [snapshotTags]

theorem withProgressCallback_append (operations : List Operation) (xs ys : List Event) :
    withProgressCallback operations (xs ++ ys) =
      withProgressCallback operations xs ++ withProgressCallback operations ys := by
  simp [withProgressCallback]

/-- A poll trace holds no `updateProgress` event of its own, so after the
callback body is substituted the snapshots are those of the callback, one per
status delivered, and the status requests are unchanged. -/
theorem withProgressCallback_poll (remote : Nat → StatusResponse) (imageId : String)
    (interval maxAttempts : Int) (operations : List Operation) :
    ∀ (n attempts : Nat), (maxAttempts - attempts).toNat ≤ n →
      percentages (withProgressCallback operations
          (poll remote imageId interval maxAttempts attempts).1) =
        (callbackArgs (poll remote imageId interval maxAttempts attempts).1).map
          (fun st => min (orDefault st.progress 50) 95) ∧
      snapshotTags (withProgressCallback operations
          (poll remote imageId interval maxAttempts attempts).1) =
        (callbackArgs (poll remote imageId interval maxAttempts attempts).1).map
          (fun st => st.status) ∧
      fetchCount (withProgressCallback operations
          (poll remote imageId interval maxAttempts attempts).1) =
        fetchCount (poll remote imageId interval maxAttempts attempts).1 := by
  intro n
  induction n with
  | zero =>
    intro attempts hn
    rcases poll_cases remote imageId interval maxAttempts attempts with
      ⟨e, _, hp⟩ | ⟨st, _, _, hp⟩ | ⟨st, _, _, _, hp⟩ | ⟨st, _, _, hA, _⟩
    · rw [hp]
      simp [withProgressCallback, percentages, snapshotTags, callbackArgs, fetchCount]
    · rw [hp]
      simp [withProgressCallback, percentages, snapshotTags, callbackArgs, fetchCount,
        progressCallback]
    · rw [hp]
      simp [withProgressCallback, percentages, snapshotTags, callbackArgs, fetchCount,
        progressCallback]
    · omega
  | succ n ih =>
    intro attempts hn
    rcases poll_cases remote imageId interval maxAttempts attempts with
      ⟨e, _, hp⟩ | ⟨st, _, _, hp⟩ | ⟨st, _, _, _, hp⟩ | ⟨st, _, _, hA, hp⟩
    · rw [hp]
      simp [withProgressCallback, percentages, snapshotTags, callbackArgs, fetchCount]
    · rw [hp]
      simp [withProgressCallback, percentages, snapshotTags, callbackArgs, fetchCount,
        progressCallback]
    · rw [hp]
      simp [withProgressCallback, percentages, snapshotTags, callbackArgs, fetchCount,
        progressCallback]
    · have h1 : (maxAttempts - ((attempts + 1 : Nat) : Int)).toNat ≤ n := by
        push_cast
        omega
      obtain ⟨i1, i2, i3⟩ := ih (attempts + 1) h1
      rw [hp, withProgressCallback_append, percentages_append, snapshotTags_append,
        fetchCount_append, callbackArgs_append, fetchCount_append, i1, i2, i3]
      simp [withProgressCallback, percentages, snapshotTags, callbackArgs, fetchCount,
        progressCallback]

/-- Every rejection of `poll` is either the error thrown by one of its status
requests or the timeout error. -/
theorem poll_error_origin (remote : Nat → StatusResponse) (imageId : String)
    (interval maxAttempts : Int) (e : Error) :
    ∀ (n attempts : Nat), (maxAttempts - attempts).toNat ≤ n →
      (poll remote imageId interval maxAttempts attempts).2 = .error e →
      e = pollingTimeout ∨ ∃ i, getImageStatus (remote i) = .error e := by
  intro n
  induction n with
  | zero =>
    intro attempts hn he
    rcases poll_cases remote imageId interval maxAttempts attempts with
      ⟨e2, h2, hp⟩ | ⟨st, _, _, hp⟩ | ⟨st, _, _, _, hp⟩ | ⟨st, _, _, hA, _⟩
    · rw [hp] at he
      simp only [Except.error.injEq] at he
      exact Or.inr ⟨attempts, by rw [h2, he]⟩
    · rw [hp] at he
      simp at he
    · rw [hp] at he
      simp only [Except.error.injEq] at he
      exact Or.inl he.symm
    · omega
  | succ n ih =>
    intro attempts hn he
    rcases poll_cases remote imageId interval maxAttempts attempts with
      ⟨e2, h2, hp⟩ | ⟨st, _, _, hp⟩ | ⟨st, _, _, _, hp⟩ | ⟨st, _, _, hA, hp⟩
    · rw [hp] at he
      simp only [Except.error.injEq] at he
      exact Or.inr ⟨attempts, by rw [h2, he]⟩
    · rw [hp] at he
      simp at he
    · rw [hp] at he
      simp only [Except.error.injEq] at he
      exact Or.inl he.symm
    · have h1 : (maxAttempts - ((attempts + 1 : Nat) : Int)).toNat ≤ n := by
        push_cast
        omega
      rw [hp] at he
      exact ih (attempts + 1) h1 he

theorem handleUpload_poll_error (s : AppState) (form : OperationsForm)
    (upload : UploadResponse) (remote : Nat → StatusResponse) (file : File)
    (result : UploadResult) (e : Error)
    (hs : s.selectedFile = some file) (ho : getSelectedOperations form ≠ [])
    (hu : uploadImage upload = .ok result)
    (hp : (api.pollImageStatus remote result.id none none).2 = .error e) :
    handleUpload s form upload remote =
      ({ s with currentImageId := some result.id },
        [ .toggleElement "operationsPanel" false,
          .toggleElement "progressSection" true,
          .updateProgress 0 "Загрузка изображения..." "pending",
          .updateProgress 30 "Загрузка на сервер..." "uploading",
          .uploadImage file (getSelectedOperations form),
          .updateProgress 50 "Обработка изображения..." "processing",
          .showToast "Изображение загружено, начинается обработка" "success" ] ++
        withProgressCallback (getSelectedOperations form)
          (api.pollImageStatus remote result.id none none).1 ++
        handleUploadCatch e) := by
  have hl : ¬ (getSelectedOperations form).length = 0 := by
    simpa [List.length_eq_zero] using ho
  simp only [handleUpload, hs, hl, if_false, hu, uploadImageLog, hp]
  simp

/-- Snapshots of a run of `handleUpload` that reaches the poll: the three
fixed stages, one snapshot per status delivered to the callback, and the
closing snapshot (`completed` at 100 when the poll returns, `failed` at 0
when it rejects). -/
theorem handleUpload_snapshots (s : AppState) (form : OperationsForm)
    (upload : UploadResponse) (remote : Nat → StatusResponse) (file : File)
    (result : UploadResult)
    (hs : s.selectedFile = some file) (ho : getSelectedOperations form ≠ [])
    (hu : uploadImage upload = .ok result) :
    percentages (handleUpload s form upload remote).2 =
      [0, 30, 50] ++
      (callbackArgs (api.pollImageStatus remote result.id none none).1).map
        (fun st => min (orDefault st.progress 50) 95) ++
      [match (api.pollImageStatus remote result.id none none).2 with
        | .ok _ => (100 : Int)
        | .error _ => 0] ∧
    snapshotTags (handleUpload s form upload remote).2 =
      ["pending", "uploading", "processing"] ++
      (callbackArgs (api.pollImageStatus remote result.id none none).1).map
        (fun st => st.status) ++
      [match (api.pollImageStatus remote result.id none none).2 with
        | .ok _ => "completed"
        | .error _ => "failed"] ∧
    fetchCount (handleUpload s form upload remote).2 =
      fetchCount (api.pollImageStatus remote result.id none none).1 := by
  obtain ⟨w1, w2, w3⟩ := withProgressCallback_poll remote result.id
    (orDefault none api.pollingConfig.interval) (orDefault none api.pollingConfig.maxAttempts)
    (getSelectedOperations form) _ 0 (le_refl _)
  cases hp : (api.pollImageStatus remote result.id none none).2 with
  | error e =>
    rw [handleUpload_poll_error s form upload remote file result e hs ho hu hp]
    simp only [ImageProcessorAPI.pollImageStatus] at *
    rw [percentages_append, percentages_append, snapshotTags_append, snapshotTags_append,
      fetchCount_append, fetchCount_append, w1, w2, w3]
    simp [percentages, snapshotTags, fetchCount, handleUploadCatch]
  | ok st =>
    rw [handleUpload_poll_ok s form upload remote file result st hs ho hu hp]
    simp only [ImageProcessorAPI.pollImageStatus] at *
    rw [percentages_append, percentages_append, snapshotTags_append, snapshotTags_append,
      fetchCount_append, fetchCount_append, w1, w2, w3]
    simp [percentages, snapshotTags, fetchCount]

theorem orDefault_progress (st : Status) :
    orDefault st.progress 50 =
      (match st.progress with
        | some v => if v ≠ 0 then v else 50
        | none => 50) := by
  cases h : st.progress with
  | none => rfl
  | some v =>
    by_cases hv : v = 0 <;> simp [orDefault, hv]

theorem poll_scenarioA :
    fetchCount (api.pollImageStatus scenarioA "img-1" none none).1 = 4 ∧
    callbackArgs (api.pollImageStatus scenarioA "img-1" none none).1 =
      (List.range' 0 4).map scenarioAStatuses ∧
    (api.pollImageStatus scenarioA "img-1" none none).2 = .ok (scenarioAStatuses 3) := by
  have hn : ∀ i, 0 ≤ i → i < 0 + 3 → isTerminal (scenarioAStatuses i) = false := by
    intro i _ hi
    have h3 : i = 0 ∨ i = 1 ∨ i = 2 := by omega
    rcases h3 with rfl | rfl | rfl <;> decide
  exact poll_reaches_terminal scenarioA "img-1" 2000 60 scenarioAStatuses 3 0
    (fun i _ _ => rfl) hn (by decide) (by decide)

/-- C16 is violated by the code: in Scenario A the remote reports the
non-decreasing progress values 0, 40, 80, 100, yet `handleUpload` emits the
percentages 0, 30, 50, 50, 40, 80, 95, 100, which drop from 50 to 40 while
the job is being polled. -/
theorem handleUpload_scenarioA_percentage_drops :
    (callbackArgs (api.pollImageStatus scenarioA "img-1" none none).1).map
      (fun st => st.progress) = [some 0, some 40, some 80, some 100] ∧
    List.Chain' (· ≤ ·) ([0, 40, 80, 100] : List Int) ∧
    percentages (handleUpload scenarioAState scenarioAForm uploadAccepted scenarioA).2 =
      [0, 30, 50, 50, 40, 80, 95, 100] ∧
    ¬ List.Chain' (· ≤ ·)
      (percentages (handleUpload scenarioAState scenarioAForm uploadAccepted scenarioA).2) := by
  obtain ⟨_, c2, c3⟩ := poll_scenarioA
  have hargs : callbackArgs
      (api.pollImageStatus scenarioA (UploadResult.mk "img-1").id none none).1 =
      (List.range' 0 4).map scenarioAStatuses := c2
  have hres : (api.pollImageStatus scenarioA (UploadResult.mk "img-1").id none none).2 =
      .ok (scenarioAStatuses 3) := c3
  have h := (handleUpload_snapshots scenarioAState scenarioAForm uploadAccepted scenarioA
    ⟨"photo.jpg", "image/jpeg", 5 * 1024 * 1024⟩ ⟨"img-1"⟩ rfl (by decide) rfl).1
  rw [hargs, hres] at h
  have h2 : percentages (handleUpload scenarioAState scenarioAForm uploadAccepted
      scenarioA).2 = [0, 30, 50, 50, 40, 80, 95, 100] := by
    rw [h]
    decide
  rw [h2, c2]
  exact ⟨by decide, by simp, rfl, by simp⟩

/-! ## Polling callback of `handleUpload` -/

/-- C19: for every status passed to the polling callback of `handleUpload`, the
percentage emitted is `min(p, 95)` with `p` the status progress when present
and non-zero and 50 otherwise, hence at most 95; in every run that reaches the
poll the percentages are 0, 30, 50, then one such value per status, then the
closing value, so 100 is not among the values emitted up to the end of
polling and appears in the run exactly when `pollImageStatus` has returned. -/
theorem handleUpload_callback_percentage (s : AppState) (form : OperationsForm)
    (upload : UploadResponse) (remote : Nat → StatusResponse) (file : File)
    (result : UploadResult)
    (hs : s.selectedFile = some file) (ho : getSelectedOperations form ≠ [])
    (hu : uploadImage upload = .ok result) :
    (∀ (operations : List Operation) (st : Status),
      percentages [progressCallback operations st] =
        [min (match st.progress with
          | some v => if v ≠ 0 then v else 50
          | none => 50) 95]) ∧
    (∀ st : Status, min (match st.progress with
          | some v => if v ≠ 0 then v else 50
          | none => 50) 95 ≤ 95) ∧
    percentages (handleUpload s form upload remote).2 =
      [0, 30, 50] ++
      (callbackArgs (api.pollImageStatus remote result.id none none).1).map
        (fun st => min (match st.progress with
          | some v => if v ≠ 0 then v else 50
          | none => 50) 95) ++
      [match (api.pollImageStatus remote result.id none none).2 with
        | .ok _ => (100 : Int)
        | .error _ => 0] ∧
    (100 : Int) ∉ [0, 30, 50] ++
      (callbackArgs (api.pollImageStatus remote result.id none none).1).map
        (fun st => min (match st.progress with
          | some v => if v ≠ 0 then v else 50
          | none => 50) 95) ∧
    ((100 : Int) ∈ percentages (handleUpload s form upload remote).2 ↔
      ∃ st, (api.pollImageStatus remote result.id none none).2 = .ok st) := by
  have hfun : (fun st : Status => min (orDefault st.progress 50) 95) =
      (fun st : Status => min (match st.progress with
          | some v => if v ≠ 0 then v else 50
          | none => 50) 95) := by
    funext st
    rw [orDefault_progress]
  have hper := (handleUpload_snapshots s form upload remote file result hs ho hu).1
  rw [hfun] at hper
  have hnot : (100 : Int) ∉ [0, 30, 50] ++
      (callbackArgs (api.pollImageStatus remote result.id none none).1).map
        (fun st => min (match st.progress with
          | some v => if v ≠ 0 then v else 50
          | none => 50) 95) := by
    intro hmem
    rcases List.mem_append.mp hmem with h | h
    · revert h
      decide
    · obtain ⟨st, _, hst⟩ := List.mem_map.mp h
      have : min (match st.progress with
          | some v => if v ≠ 0 then v else 50
          | none => 50) 95 ≤ 95 := min_le_right _ _
      omega
  refine ⟨?_, fun st => min_le_right _ _, hper, hnot, ?_⟩
  · intro operations st
    simp only [percentages, progressCallback, List.filterMap_cons, List.filterMap_nil,
      orDefault_progress]
  · rw [hper]
    cases hp : (api.pollImageStatus remote result.id none none).2 with
    | error e =>
      constructor
      · intro hmem
        rcases List.mem_append.mp hmem with h | h
        · exact absurd h hnot
        · simp at h
      · rintro ⟨st, hst⟩
        simp at hst
    | ok st =>
      exact ⟨fun _ => ⟨st, rfl⟩, fun _ => by simp⟩

theorem handleUpload_callback_percentage_witness :
    stateWithPng.selectedFile = some ⟨"cat.png", "image/png", 5⟩ ∧
    getSelectedOperations thumbnailForm ≠ [] ∧
    uploadImage uploadAccepted = .ok ⟨"img-1"⟩ ∧
    (∀ (operations : List Operation) (st : Status),
      percentages [progressCallback operations st] =
        [min (match st.progress with
          | some v => if v ≠ 0 then v else 50
          | none => 50) 95]) ∧
    (∀ st : Status, min (match st.progress with
          | some v => if v ≠ 0 then v else 50
          | none => 50) 95 ≤ 95) ∧
    percentages (handleUpload stateWithPng thumbnailForm uploadAccepted completesSecond).2 =
      [0, 30, 50] ++
      (callbackArgs
        (api.pollImageStatus completesSecond (UploadResult.mk "img-1").id none none).1).map
        (fun st => min (match st.progress with
          | some v => if v ≠ 0 then v else 50
          | none => 50) 95) ++
      [match (api.pollImageStatus completesSecond (UploadResult.mk "img-1").id none none).2 with
        | .ok _ => (100 : Int)
        | .error _ => 0] ∧
    (100 : Int) ∉ [0, 30, 50] ++
      (callbackArgs
        (api.pollImageStatus completesSecond (UploadResult.mk "img-1").id none none).1).map
        (fun st => min (match st.progress with
          | some v => if v ≠ 0 then v else 50
          | none => 50) 95) ∧
    ((100 : Int) ∈ percentages
        (handleUpload stateWithPng thumbnailForm uploadAccepted completesSecond).2 ↔
      ∃ st, (api.pollImageStatus completesSecond (UploadResult.mk "img-1").id none none).2 =
        .ok st) :=
  ⟨rfl, by decide, rfl,
    handleUpload_callback_percentage stateWithPng thumbnailForm uploadAccepted completesSecond
      ⟨"cat.png", "image/png", 5⟩ ⟨"img-1"⟩ rfl (by decide) rfl⟩

end ImageProcessor
